import Mathlib

/-!
Shallow embedding of the Claude-CMS service core (contact / organization /
note / task services over a SQLite-backed record store).

Conventions of the embedding:
* Database tables are Lean lists of records; row ids are `Nat`.
* Many-to-many association collections on an ORM object are modelled as the
  list of associated row ids (the SQLAlchemy identity map guarantees a row id
  determines the in-session object, so object membership tests such as
  `contact not in task.contacts` become id-membership tests).
* Python truthiness of optional arguments (`if add_contact_ids:`) is modelled
  by `truthyList` / `truthyNat`: `None`, `[]` and `0` are falsy.
* Every formatted error message string of the source is modelled by one
  constructor of `Err` carrying the interpolated values; `set(...) - set(...)`
  of missing ids is modelled as a deduplicated filtered list (claims about the
  message only concern which ids it names).
* `get_db_session` commits the session whenever the service function returns
  without raising, including early error returns.  Service functions therefore
  return the post-commit store together with the (result, error) pair: an
  early `return None, err` still commits whatever was mutated before it.
* A Python exception escaping the session (only reachable in
  `bulk_add_contacts` via `parts[0]` on a blank name) rolls the session back
  and propagates; such calls are modelled with an `Option` result, `none`
  meaning the call raised and nothing was committed.
-/

namespace CMS

/-- A row of the `contacts` table (models/contact_note.py, class Contact). -/
structure Contact where
  id : Nat
  first_name : String
  last_name : String
deriving DecidableEq, Repr

/-- A row of the `organizations` table (models/contact_note.py, class Organization). -/
structure Organization where
  id : Nat
  name : String
deriving DecidableEq, Repr

/-- A row of the `tasks` table (models/task.py, class Task), with its
many-to-many association collections as id lists. -/
structure Task where
  id : Nat
  title : String
  description : Option String
  due_date : Int
  importance : Int
  completed : Bool
  created_at : Int
  contacts : List Nat
  organizations : List Nat
deriving DecidableEq, Repr

/-- A row of the `notes` table (models/contact_note.py, class Note), with its
many-to-many association collections as id lists. -/
structure Note where
  id : Nat
  title : String
  content : String
  created_at : Int
  contacts : List Nat
  organizations : List Nat
  tasks : List Nat
deriving DecidableEq, Repr

/-- The record store: the four entity tables of lib/database.py.  The five
pure link tables are carried on the owning `Note`/`Task` rows. -/
structure Store where
  contacts : List Contact
  organizations : List Organization
  tasks : List Task
  notes : List Note
deriving DecidableEq, Repr

/-- The empty store. -/
def Store.empty : Store := ⟨[], [], [], []⟩

/-- Each formatted error-message string of the service layer, as a structured
value carrying exactly the data interpolated into the message. -/
inductive Err where
  | contactExists (first last : String) (id : Nat)
  | orgExists (name : String) (id : Nat)
  | contactsNotFound (missing : List Nat)
  | orgsNotFound (missing : List Nat)
  | tasksNotFound (missing : List Nat)
  | noteNotFound (id : Nat)
  | taskNotFound (id : Nat)
  | contactNotFound (id : Nat)
  | orgNotFound (id : Nat)
  | importanceOutOfRange
  | taskAlreadyCompleted (title : String)
  | taskAlreadyIncomplete (title : String)
deriving DecidableEq, Repr

/-- The `changes` dict built by NoteService.tag_note. -/
structure Changes where
  added_contacts : List String
  removed_contacts : List String
  added_organizations : List String
  removed_organizations : List String
  added_tasks : List String
  removed_tasks : List String
deriving DecidableEq, Repr

/-- The `changes` dict as initialised (all lists empty). -/
def Changes.empty : Changes := ⟨[], [], [], [], [], []⟩

/-- The `changes` dict built by TaskService.tag_task. -/
structure TaskChanges where
  added_contacts : List String
  removed_contacts : List String
  added_organizations : List String
  removed_organizations : List String
deriving DecidableEq, Repr

/-- The tag_task `changes` dict as initialised (all lists empty). -/
def TaskChanges.empty : TaskChanges := ⟨[], [], [], []⟩

/-- Python truthiness of an `Optional[List[int]]` argument: `None` and `[]`
are falsy. -/
def truthyList (o : Option (List Nat)) : Bool :=
  match o with
  | some (_ :: _) => true
  | _ => false

/-- Python truthiness of an `Optional[int]` argument: `None` and `0` are
falsy. -/
def truthyNat (o : Option Nat) : Bool :=
  match o with
  | some k => k != 0
  | none => false

/-- SQLite `INTEGER PRIMARY KEY AUTOINCREMENT`: the id assigned to a freshly
inserted row (one more than the largest id in the table). -/
def nextId (ids : List Nat) : Nat := ids.foldr max 0 + 1

/-- The f-string `f"{c.first_name} {c.last_name}"` used in the diffs. -/
def contactName (c : Contact) : String := c.first_name ++ " " ++ c.last_name

/-- `SELECT ... WHERE id = i` followed by `scalar_one_or_none()` (the stores
built here keep row ids unique, so the first match is the only match). -/
def Store.findContact (s : Store) (i : Nat) : Option Contact :=
  s.contacts.find? (fun c => c.id == i)

/-- Point lookup in the `organizations` table. -/
def Store.findOrg (s : Store) (i : Nat) : Option Organization :=
  s.organizations.find? (fun o => o.id == i)

/-- Point lookup in the `tasks` table. -/
def Store.findTask (s : Store) (i : Nat) : Option Task :=
  s.tasks.find? (fun t => t.id == i)

/-- Point lookup in the `notes` table. -/
def Store.findNote (s : Store) (i : Nat) : Option Note :=
  s.notes.find? (fun n => n.id == i)

/-- Committing a mutated note row back to the store (the session flush/commit
writes the row with this id). -/
def Store.setNote (s : Store) (n : Note) : Store :=
  { s with notes := s.notes.map (fun m => if m.id == n.id then n else m) }

/-- Committing a mutated task row back to the store. -/
def Store.setTask (s : Store) (t : Task) : Store :=
  { s with tasks := s.tasks.map (fun u => if u.id == t.id then t else u) }

/-- Committing a mutated contact row back to the store. -/
def Store.setContact (s : Store) (c : Contact) : Store :=
  { s with contacts := s.contacts.map (fun d => if d.id == c.id then c else d) }

/-- `set(ids) - found_ids` where `found` are the ids of the selected rows:
the ids of `ids` (without duplicates) that matched no row. -/
def missingIds (ids found : List Nat) : List Nat :=
  ids.dedup.filter (fun i => !found.contains i)

/-- Human-readable name of an associated contact row, looked up by id (the
foreign keys of the link tables keep this lookup total on real stores). -/
def Store.contactNameOf (s : Store) (i : Nat) : String :=
  ((s.findContact i).map contactName).getD ""

/-- Human-readable name of an associated organization row. -/
def Store.orgNameOf (s : Store) (i : Nat) : String :=
  ((s.findOrg i).map (fun o => o.name)).getD ""

/-- Title of an associated task row. -/
def Store.taskTitleOf (s : Store) (i : Nat) : String :=
  ((s.findTask i).map (fun t => t.title)).getD ""

/-- Well-formedness actually maintained by the SQLite schema: row ids are
unique within each table. -/
def Store.WF (s : Store) : Prop :=
  (s.contacts.map Contact.id).Nodup ∧ (s.organizations.map Organization.id).Nodup ∧
  (s.tasks.map Task.id).Nodup ∧ (s.notes.map Note.id).Nodup

instance (s : Store) : Decidable s.WF := by
  unfold Store.WF
  infer_instance

namespace NoteService

/-- The `# Add contacts` block of NoteService.tag_note (note_service.py
lines 214-234): select the rows named by the add-list, fail on any missing
id, extend the association with the rows not already present, and record the
names actually added.  (The source guards the extend with
`if new_contacts:`; skipping the guard yields the same value.) -/
def noteAddContacts (s : Store) (note : Note) (o : Option (List Nat)) :
    Except Err (Note × List String) :=
  if truthyList o then
    let ids := o.getD []
    let contacts_to_add := s.contacts.filter (fun c => ids.contains c.id)
    let found_ids := contacts_to_add.map Contact.id
    let missing_ids := missingIds ids found_ids
    if missing_ids.isEmpty then
      let new_contacts := contacts_to_add.filter (fun c => !note.contacts.contains c.id)
      .ok ({ note with contacts := note.contacts ++ new_contacts.map Contact.id },
           new_contacts.map contactName)
    else
      .error (.contactsNotFound missing_ids)
  else
    .ok (note, [])

/-- The `# Remove contacts` block of NoteService.tag_note (lines 236-246):
drop the associated rows whose id is in the remove-list and record their
names; ids not associated are ignored. -/
def noteRemoveContacts (s : Store) (note : Note) (o : Option (List Nat)) :
    Note × List String :=
  if truthyList o then
    let ids := o.getD []
    let removed := note.contacts.filter (fun i => ids.contains i)
    ({ note with contacts := note.contacts.filter (fun i => !ids.contains i) },
     removed.map s.contactNameOf)
  else
    (note, [])

/-- The `# Add organizations` block of NoteService.tag_note (lines 248-269). -/
def noteAddOrgs (s : Store) (note : Note) (o : Option (List Nat)) :
    Except Err (Note × List String) :=
  if truthyList o then
    let ids := o.getD []
    let orgs_to_add := s.organizations.filter (fun g => ids.contains g.id)
    let found_ids := orgs_to_add.map Organization.id
    let missing_ids := missingIds ids found_ids
    if missing_ids.isEmpty then
      let new_orgs := orgs_to_add.filter (fun g => !note.organizations.contains g.id)
      .ok ({ note with organizations := note.organizations ++ new_orgs.map Organization.id },
           new_orgs.map Organization.name)
    else
      .error (.orgsNotFound missing_ids)
  else
    .ok (note, [])

/-- The `# Remove organizations` block of NoteService.tag_note (lines 271-281). -/
def noteRemoveOrgs (s : Store) (note : Note) (o : Option (List Nat)) :
    Note × List String :=
  if truthyList o then
    let ids := o.getD []
    let removed := note.organizations.filter (fun i => ids.contains i)
    ({ note with organizations := note.organizations.filter (fun i => !ids.contains i) },
     removed.map s.orgNameOf)
  else
    (note, [])

/-- The `# Add tasks` block of NoteService.tag_note (lines 283-302). -/
def noteAddTasks (s : Store) (note : Note) (o : Option (List Nat)) :
    Except Err (Note × List String) :=
  if truthyList o then
    let ids := o.getD []
    let tasks_to_add := s.tasks.filter (fun t => ids.contains t.id)
    let found_ids := tasks_to_add.map Task.id
    let missing_ids := missingIds ids found_ids
    if missing_ids.isEmpty then
      let new_tasks := tasks_to_add.filter (fun t => !note.tasks.contains t.id)
      .ok ({ note with tasks := note.tasks ++ new_tasks.map Task.id },
           new_tasks.map Task.title)
    else
      .error (.tasksNotFound missing_ids)
  else
    .ok (note, [])

/-- The `# Remove tasks` block of NoteService.tag_note (lines 304-310). -/
def noteRemoveTasks (s : Store) (note : Note) (o : Option (List Nat)) :
    Note × List String :=
  if truthyList o then
    let ids := o.getD []
    let removed := note.tasks.filter (fun i => ids.contains i)
    ({ note with tasks := note.tasks.filter (fun i => !ids.contains i) },
     removed.map s.taskTitleOf)
  else
    (note, [])

/-- NoteService.tag_note (note_service.py lines 165-314), local mode.  The
kinds are processed in source order (add/remove contacts, add/remove
organizations, add/remove tasks); every `return` path leaves the
`get_db_session` block normally, so the session commit persists whatever was
mutated before the return — including the early error returns. -/
def tag_note (s : Store) (note_id : Nat)
    (add_contact_ids remove_contact_ids add_org_ids remove_org_ids
     add_task_ids remove_task_ids : Option (List Nat)) :
    Store × Option Changes × Option Err :=
  match s.findNote note_id with
  | none => (s, none, some (.noteNotFound note_id))
  | some note0 =>
    match noteAddContacts s note0 add_contact_ids with
    | .error e => (s.setNote note0, none, some e)
    | .ok (note1, addedC) =>
      let (note2, removedC) := noteRemoveContacts s note1 remove_contact_ids
      match noteAddOrgs s note2 add_org_ids with
      | .error e => (s.setNote note2, none, some e)
      | .ok (note3, addedO) =>
        let (note4, removedO) := noteRemoveOrgs s note3 remove_org_ids
        match noteAddTasks s note4 add_task_ids with
        | .error e => (s.setNote note4, none, some e)
        | .ok (note5, addedT) =>
          let (note6, removedT) := noteRemoveTasks s note5 remove_task_ids
          (s.setNote note6, some ⟨addedC, removedC, addedO, removedO, addedT, removedT⟩, none)

end NoteService

namespace TaskService

/-- The `# Add contacts` loop of TaskService.tag_task (task_service.py lines
202-211): for each selected row, append it unless already associated; no
missing-id check is performed. -/
def taskAddContactsLoop : List Nat → List String → List Contact → List Nat × List String
  | cur, names, [] => (cur, names)
  | cur, names, c :: rest =>
    if cur.contains c.id then taskAddContactsLoop cur names rest
    else taskAddContactsLoop (cur ++ [c.id]) (names ++ [contactName c]) rest

/-- The `# Add organizations` loop of TaskService.tag_task (lines 224-231). -/
def taskAddOrgsLoop : List Nat → List String → List Organization → List Nat × List String
  | cur, names, [] => (cur, names)
  | cur, names, g :: rest =>
    if cur.contains g.id then taskAddOrgsLoop cur names rest
    else taskAddOrgsLoop (cur ++ [g.id]) (names ++ [g.name]) rest

/-- TaskService.tag_task (task_service.py lines 172-246), local mode.  Unlike
tag_note it never checks the add-lists for unresolved ids, and the removed
lists of the diff are filled from a fresh table query over the remove-list
ids, not from the rows actually un-associated. -/
def tag_task (s : Store) (task_id : Nat)
    (add_contact_ids add_org_ids remove_contact_ids remove_org_ids : Option (List Nat)) :
    Store × Option TaskChanges × Option Err :=
  match s.findTask task_id with
  | none => (s, none, some (.taskNotFound task_id))
  | some task0 =>
    let addStep :=
      if truthyList add_contact_ids then
        let ids := add_contact_ids.getD []
        let contacts_to_add := s.contacts.filter (fun c => ids.contains c.id)
        taskAddContactsLoop task0.contacts [] contacts_to_add
      else (task0.contacts, [])
    let removeStep :=
      if truthyList remove_contact_ids then
        let ids := remove_contact_ids.getD []
        let removed_contact_objs := s.contacts.filter (fun c => ids.contains c.id)
        (addStep.1.filter (fun i => !ids.contains i), removed_contact_objs.map contactName)
      else (addStep.1, [])
    let addOrgStep :=
      if truthyList add_org_ids then
        let ids := add_org_ids.getD []
        let orgs_to_add := s.organizations.filter (fun g => ids.contains g.id)
        taskAddOrgsLoop task0.organizations [] orgs_to_add
      else (task0.organizations, [])
    let removeOrgStep :=
      if truthyList remove_org_ids then
        let ids := remove_org_ids.getD []
        let removed_org_objs := s.organizations.filter (fun g => ids.contains g.id)
        (addOrgStep.1.filter (fun i => !ids.contains i), removed_org_objs.map Organization.name)
      else (addOrgStep.1, [])
    let task1 := { task0 with contacts := removeStep.1, organizations := removeOrgStep.1 }
    (s.setTask task1, some ⟨addStep.2, removeStep.2, addOrgStep.2, removeOrgStep.2⟩, none)

end TaskService

/-- Python's `str.isspace` characters relevant to `str.strip()` /
`str.split()`. -/
def pyIsSpace (c : Char) : Bool :=
  c == ' ' || c == '\t' || c == '\n' || c == '\r' || c == '\x0b' || c == '\x0c'

/-- Python `str.strip()`: drop leading and trailing whitespace. -/
def pyStrip (l : List Char) : List Char :=
  ((l.dropWhile pyIsSpace).reverse.dropWhile pyIsSpace).reverse

/-- `name.strip().split(maxsplit=1)` followed by `parts[0]` /
`parts[1] if len(parts) > 1 else ""` (contact_service.py lines 89-91).
A blank name gives `parts == []`, so `parts[0]` raises IndexError: modelled
as `none`. -/
def pySplitFirst (l : List Char) : Option (List Char × List Char) :=
  let t := pyStrip l
  if t.isEmpty then none
  else
    some (t.takeWhile (fun c => !pyIsSpace c),
          (t.dropWhile (fun c => !pyIsSpace c)).dropWhile pyIsSpace)

/-- The (first name, last name) pair ContactService.bulk_add_contacts derives
from one input name, or `none` when the lookup `parts[0]` raises. -/
def parseName (name : String) : Option (String × String) :=
  (pySplitFirst name.data).map (fun p => (String.mk p.1, String.mk p.2))

/-- Case-insensitive containment
`func.lower(column).contains(query.lower())`. -/
def strContainsCI (hay needle : String) : Bool :=
  decide (needle.toLower.data <:+: hay.toLower.data)

namespace ContactService

/-- ContactService.add_contact (contact_service.py lines 16-46): pre-check
the (first_name, last_name) pair, reject a duplicate with the existing row's
id, otherwise insert. -/
def add_contact (s : Store) (first_name last_name : String) :
    Store × Option Contact × Option Err :=
  match s.contacts.find? (fun c => c.first_name == first_name && c.last_name == last_name) with
  | some existing => (s, none, some (.contactExists first_name last_name existing.id))
  | none =>
    let c : Contact := ⟨nextId (s.contacts.map Contact.id), first_name, last_name⟩
    ({ s with contacts := s.contacts ++ [c] }, some c, none)

/-- ContactService.list_contacts (lines 48-53): full scan ordered by last
name. -/
def list_contacts (s : Store) : List Contact :=
  s.contacts.mergeSort (fun a b => decide (a.last_name ≤ b.last_name))

/-- ContactService.get_top_contacts (lines 55-71): outer-join note counts,
grouped per contact, ordered by count descending (ties in storage order),
truncated. -/
def get_top_contacts (s : Store) (limit : Nat) : List (Contact × Nat) :=
  ((s.contacts.map
      (fun c => (c, (s.notes.filter (fun n => n.contacts.contains c.id)).length))).mergeSort
    (fun a b => decide (b.2 ≤ a.2))).take limit

/-- The per-name loop body of ContactService.bulk_add_contacts (lines
88-106), threading the session state; `none` models the IndexError a blank
name raises, which rolls back and aborts the whole call. -/
def bulkAddGo : Store → List String → List String → List String →
    Option (Store × List String × List String)
  | s, added, skipped, [] => some (s, added, skipped)
  | s, added, skipped, name :: rest =>
    match parseName name with
    | none => none
    | some (fn, ln) =>
      match s.contacts.find? (fun c => c.first_name == fn && c.last_name == ln) with
      | some existing =>
        bulkAddGo s added
          (skipped ++ [fn ++ " " ++ ln ++ " (ID: " ++ toString existing.id ++ ")"]) rest
      | none =>
        let c : Contact := ⟨nextId (s.contacts.map Contact.id), fn, ln⟩
        bulkAddGo { s with contacts := s.contacts ++ [c] }
          (added ++ [fn ++ " " ++ ln ++ " (ID: " ++ toString c.id ++ ")"]) skipped rest

/-- ContactService.bulk_add_contacts (lines 73-108). -/
def bulk_add_contacts (s : Store) (names : List String) :
    Option (Store × List String × List String) :=
  bulkAddGo s [] [] names

/-- ContactService.search_contacts (lines 110-125): case-insensitive
containment over either name field, ordered by (first name, last name). -/
def search_contacts (s : Store) (query : String) : List Contact :=
  (s.contacts.filter
      (fun c => strContainsCI c.first_name query || strContainsCI c.last_name query)).mergeSort
    (fun a b =>
      decide (a.first_name < b.first_name) ||
      (a.first_name == b.first_name && decide (a.last_name ≤ b.last_name)))

/-- ContactService.get_contact_with_notes (lines 127-149): one contact plus
its notes sorted by creation time descending, truncated. -/
def get_contact_with_notes (s : Store) (contact_id : Nat) (note_limit : Nat) :
    Option (Contact × List Note) :=
  match s.findContact contact_id with
  | none => none
  | some c =>
    let notes := s.notes.filter (fun n => n.contacts.contains c.id)
    some (c, (notes.mergeSort (fun a b => decide (b.created_at ≤ a.created_at))).take note_limit)

end ContactService

namespace OrganizationService

/-- OrganizationService.add_organization (organization_service.py lines
16-38): pre-check the name, reject a duplicate with the existing row's id,
otherwise insert. -/
def add_organization (s : Store) (name : String) :
    Store × Option Organization × Option Err :=
  match s.organizations.find? (fun g => g.name == name) with
  | some existing => (s, none, some (.orgExists name existing.id))
  | none =>
    let g : Organization := ⟨nextId (s.organizations.map Organization.id), name⟩
    ({ s with organizations := s.organizations ++ [g] }, some g, none)

/-- OrganizationService.list_organizations (lines 40-45). -/
def list_organizations (s : Store) : List Organization :=
  s.organizations.mergeSort (fun a b => decide (a.name ≤ b.name))

/-- OrganizationService.get_top_organizations (lines 47-63). -/
def get_top_organizations (s : Store) (limit : Nat) : List (Organization × Nat) :=
  ((s.organizations.map
      (fun g => (g, (s.notes.filter (fun n => n.organizations.contains g.id)).length))).mergeSort
    (fun a b => decide (b.2 ≤ a.2))).take limit

end OrganizationService

namespace TaskService

/-- TaskService.add_task (task_service.py lines 18-65): out-of-range
importance is rejected before any store access; contact/organization
add-lists are resolved with *no* missing-id check, so unmatched ids are
silently dropped. -/
def add_task (s : Store) (title : String) (due_date : Int) (importance : Int)
    (description : Option String)
    (contact_ids organization_ids : Option (List Nat)) (created_at : Int) :
    Store × Option Task × Option Err :=
  if importance < 0 ∨ 10 < importance then (s, none, some .importanceOutOfRange)
  else
    let cs :=
      if truthyList contact_ids then
        (s.contacts.filter (fun c => (contact_ids.getD []).contains c.id)).map Contact.id
      else []
    let os :=
      if truthyList organization_ids then
        (s.organizations.filter (fun g => (organization_ids.getD []).contains g.id)).map
          Organization.id
      else []
    let t : Task :=
      ⟨nextId (s.tasks.map Task.id), title, description, due_date, importance, false,
       created_at, cs, os⟩
    ({ s with tasks := s.tasks ++ [t] }, some t, none)

/-- TaskService.list_tasks (lines 67-96): filter by completion and the
optional joins, order by due date ascending, truncate. -/
def list_tasks (s : Store) (limit : Nat) (show_completed : Bool)
    (contact_id organization_id : Option Nat) : List Task :=
  let l1 := if !show_completed then s.tasks.filter (fun t => !t.completed) else s.tasks
  let l2 :=
    if truthyNat contact_id then l1.filter (fun t => t.contacts.contains (contact_id.getD 0))
    else l1
  let l3 :=
    if truthyNat organization_id then
      l2.filter (fun t => t.organizations.contains (organization_id.getD 0))
    else l2
  (l3.mergeSort (fun a b => decide (a.due_date ≤ b.due_date))).take limit

/-- TaskService.get_urgent_tasks (lines 98-120): incomplete tasks due within
`days` days of `now`; `"urgency"` sorts by due date ascending, anything else
by importance descending then due date ascending. -/
def get_urgent_tasks (s : Store) (now : Int) (days : Int) (sort_by : String) : List Task :=
  let threshold := now + days * 86400
  let cand := s.tasks.filter (fun t => !t.completed && decide (t.due_date ≤ threshold))
  if sort_by == "urgency" then
    cand.mergeSort (fun a b => decide (a.due_date ≤ b.due_date))
  else
    cand.mergeSort (fun a b =>
      decide (b.importance < a.importance) ||
      (a.importance == b.importance && decide (a.due_date ≤ b.due_date)))

/-- TaskService.get_task (lines 122-132). -/
def get_task (s : Store) (task_id : Nat) : Option Task :=
  s.findTask task_id

/-- TaskService.complete_task (lines 134-151). -/
def complete_task (s : Store) (task_id : Nat) : Store × Option Task × Option Err :=
  match s.findTask task_id with
  | none => (s, none, some (.taskNotFound task_id))
  | some t =>
    if t.completed then (s, none, some (.taskAlreadyCompleted t.title))
    else
      let t1 := { t with completed := true }
      (s.setTask t1, some t1, none)

/-- TaskService.uncomplete_task (lines 153-170). -/
def uncomplete_task (s : Store) (task_id : Nat) : Store × Option Task × Option Err :=
  match s.findTask task_id with
  | none => (s, none, some (.taskNotFound task_id))
  | some t =>
    if !t.completed then (s, none, some (.taskAlreadyIncomplete t.title))
    else
      let t1 := { t with completed := false }
      (s.setTask t1, some t1, none)

end TaskService

namespace NoteService

/-- The contact block of NoteService.add_note (note_service.py lines 44-58):
resolve the add-list, failing with the full missing-id set. -/
def resolveContacts (s : Store) (o : Option (List Nat)) : Except Err (List Nat) :=
  if truthyList o then
    let ids := o.getD []
    let objs := s.contacts.filter (fun c => ids.contains c.id)
    let missing := missingIds ids (objs.map Contact.id)
    if missing.isEmpty then .ok (objs.map Contact.id)
    else .error (.contactsNotFound missing)
  else .ok []

/-- The organization block of NoteService.add_note (lines 60-76). -/
def resolveOrgs (s : Store) (o : Option (List Nat)) : Except Err (List Nat) :=
  if truthyList o then
    let ids := o.getD []
    let objs := s.organizations.filter (fun g => ids.contains g.id)
    let missing := missingIds ids (objs.map Organization.id)
    if missing.isEmpty then .ok (objs.map Organization.id)
    else .error (.orgsNotFound missing)
  else .ok []

/-- The task block of NoteService.add_note (lines 78-92). -/
def resolveTasks (s : Store) (o : Option (List Nat)) : Except Err (List Nat) :=
  if truthyList o then
    let ids := o.getD []
    let objs := s.tasks.filter (fun t => ids.contains t.id)
    let missing := missingIds ids (objs.map Task.id)
    if missing.isEmpty then .ok (objs.map Task.id)
    else .error (.tasksNotFound missing)
  else .ok []

/-- NoteService.add_note (note_service.py lines 18-98), local mode: resolve
all three add-lists before the note is added to the session, so an error
return commits nothing. -/
def add_note (s : Store) (title content : String) (created_at : Int)
    (contact_ids organization_ids task_ids : Option (List Nat)) :
    Store × Option Note × Option Err :=
  match resolveContacts s contact_ids with
  | .error e => (s, none, some e)
  | .ok cs =>
    match resolveOrgs s organization_ids with
    | .error e => (s, none, some e)
    | .ok os =>
      match resolveTasks s task_ids with
      | .error e => (s, none, some e)
      | .ok ts =>
        let n : Note :=
          ⟨nextId (s.notes.map Note.id), title, content, created_at, cs, os, ts⟩
        ({ s with notes := s.notes ++ [n] }, some n, none)

/-- `ORDER BY notes.created_at DESC` (stable in storage order on ties). -/
def sortNotesByCreatedDesc (l : List Note) : List Note :=
  l.mergeSort (fun a b => decide (b.created_at ≤ a.created_at))

/-- NoteService.list_notes (note_service.py lines 100-145), local mode: a
truthy contact filter that resolves returns that contact's notes truncated; a
truthy filter that does not resolve returns a not-found error. -/
def list_notes (s : Store) (limit : Nat) (contact_id organization_id : Option Nat) :
    Option (List Note) × Option Err :=
  if truthyNat contact_id then
    let cid := contact_id.getD 0
    match s.findContact cid with
    | none => (none, some (.contactNotFound cid))
    | some c => (some ((s.notes.filter (fun n => n.contacts.contains c.id)).take limit), none)
  else if truthyNat organization_id then
    let oid := organization_id.getD 0
    match s.findOrg oid with
    | none => (none, some (.orgNotFound oid))
    | some g =>
      (some ((s.notes.filter (fun n => n.organizations.contains g.id)).take limit), none)
  else
    (some ((sortNotesByCreatedDesc s.notes).take limit), none)

/-- NoteService.get_note (note_service.py lines 147-163), local mode. -/
def get_note (s : Store) (note_id : Nat) : Option Note :=
  s.findNote note_id

end NoteService

namespace Models

/-- One class definition processed by the metaclasses of models/__init__.py:
either a SQLAlchemy model (ValidatedSQLAlchemyMeta) or a Pydantic model
(ValidatedPydanticMeta), with its name and whether the namespace sets
`__abstract__`. -/
inductive ModelDecl where
  | sqlalchemy (name : String) (abstract : Bool)
  | pydantic (name : String) (abstract : Bool)
deriving DecidableEq, Repr

/-- The two module-level registries `_sqlalchemy_models` /
`_pydantic_models` (keys only; the mapped classes carry no further data
relevant here). -/
structure Registry where
  sqlalchemy_models : List String
  pydantic_models : List String
deriving DecidableEq, Repr

/-- Both registries start empty. -/
def Registry.empty : Registry := ⟨[], []⟩

/-- ValidatedSQLAlchemyMeta.__new__ (models/__init__.py lines 47-62): skip
`Base` and abstract classes, otherwise register the name. -/
def defineSQLAlchemyModel (r : Registry) (name : String) (abstract : Bool) : Registry :=
  if name == "Base" || abstract then r
  else { r with sqlalchemy_models := r.sqlalchemy_models ++ [name] }

/-- ValidatedPydanticMeta.__new__ (models/__init__.py lines 22-44): skip
`BaseModel` and abstract classes; otherwise register the name and then raise
AssertionError naming the type if no same-named SQLAlchemy model was
registered first. -/
def definePydanticModel (r : Registry) (name : String) (abstract : Bool) :
    Except String Registry :=
  if name == "BaseModel" || abstract then .ok r
  else
    let r1 := { r with pydantic_models := r.pydantic_models ++ [name] }
    if r.sqlalchemy_models.contains name then .ok r1
    else .error name

/-- Processing a module-load sequence of class definitions: the first failing
Pydantic definition halts the remainder of initialization. -/
def loadModels : Registry → List ModelDecl → Except String Registry
  | r, [] => .ok r
  | r, .sqlalchemy n a :: rest => loadModels (defineSQLAlchemyModel r n a) rest
  | r, .pydantic n a :: rest =>
    match definePydanticModel r n a with
    | .error e => .error e
    | .ok r1 => loadModels r1 rest

/-- The class definitions this repository runs through the two metaclasses,
in import order: models/__init__.py (the two abstract bases), then
models/contact_note.py, then models/task.py.  (The plain-BaseModel classes
such as ContactWithNotes bypass the metaclass and are not processed.) -/
def repoModelDecls : List ModelDecl :=
  [.sqlalchemy "ValidatedBase" true,
   .pydantic "ValidatedPydanticModel" true,
   .sqlalchemy "Contact" false,
   .sqlalchemy "Organization" false,
   .sqlalchemy "Note" false,
   .pydantic "Contact" false,
   .pydantic "Organization" false,
   .pydantic "Note" false,
   .sqlalchemy "Task" false,
   .pydantic "Task" false]

end Models

/-- One HTTP round trip issued by services/http_client.py, identified by
method and endpoint. -/
structure HttpRequest where
  method : String
  endpoint : String
deriving DecidableEq, Repr

/-- Where a service call executed. -/
inductive Backend where
  | localStore
  | remotePeer
deriving DecidableEq, Repr

/-- The outcome of a dispatched service call: either the local-store result
or the network request the HTTP client would issue. -/
inductive Dispatched (α : Type) where
  | onLocal (result : α)
  | onRemote (req : HttpRequest)
deriving DecidableEq, Repr

/-- The backend that served a dispatched call. -/
def Dispatched.backend {α : Type} : Dispatched α → Backend
  | .onLocal _ => .localStore
  | .onRemote _ => .remotePeer

/-- base_service.is_remote_mode (base_service.py lines 11-13), as a function
of the process-wide `SERVICE_URL` configuration value read once at import. -/
def is_remote_mode (service_url : Option String) : Bool :=
  service_url.isSome

namespace NoteService

/-- The dispatch header of NoteService.add_note (note_service.py lines
33-38): remote mode forwards to `POST /notes` via NoteHTTP.add_note. -/
def add_note_dispatch (service_url : Option String) (s : Store) (title content : String)
    (created_at : Int) (contact_ids organization_ids task_ids : Option (List Nat)) :
    Dispatched (Store × Option Note × Option Err) :=
  if is_remote_mode service_url then .onRemote ⟨"POST", "/notes"⟩
  else .onLocal (add_note s title content created_at contact_ids organization_ids task_ids)

/-- The dispatch header of NoteService.list_notes (lines 113-116): remote
mode forwards to `GET /notes`. -/
def list_notes_dispatch (service_url : Option String) (s : Store) (limit : Nat)
    (contact_id organization_id : Option Nat) :
    Dispatched (Option (List Note) × Option Err) :=
  if is_remote_mode service_url then .onRemote ⟨"GET", "/notes"⟩
  else .onLocal (list_notes s limit contact_id organization_id)

/-- The dispatch header of NoteService.get_note (lines 151-154). -/
def get_note_dispatch (service_url : Option String) (s : Store) (note_id : Nat) :
    Dispatched (Option Note) :=
  if is_remote_mode service_url then
    .onRemote ⟨"GET", "/notes/" ++ toString note_id⟩
  else .onLocal (get_note s note_id)

/-- The dispatch header of NoteService.tag_note (lines 182-193): remote mode
forwards to `PATCH /notes/{id}/tags`. -/
def tag_note_dispatch (service_url : Option String) (s : Store) (note_id : Nat)
    (add_contact_ids remove_contact_ids add_org_ids remove_org_ids
     add_task_ids remove_task_ids : Option (List Nat)) :
    Dispatched (Store × Option Changes × Option Err) :=
  if is_remote_mode service_url then
    .onRemote ⟨"PATCH", "/notes/" ++ toString note_id ++ "/tags"⟩
  else
    .onLocal (tag_note s note_id add_contact_ids remove_contact_ids add_org_ids
      remove_org_ids add_task_ids remove_task_ids)

end NoteService

namespace ContactService

/-- ContactService.add_contact consults no remote mode (contact_service.py
has no is_remote_mode branch): it runs on the local store for every
configuration. -/
def add_contact_dispatch (_service_url : Option String) (s : Store)
    (first_name last_name : String) : Dispatched (Store × Option Contact × Option Err) :=
  .onLocal (add_contact s first_name last_name)

/-- ContactService.list_contacts: no remote branch in the source. -/
def list_contacts_dispatch (_service_url : Option String) (s : Store) :
    Dispatched (List Contact) :=
  .onLocal (list_contacts s)

/-- ContactService.get_top_contacts: no remote branch in the source. -/
def get_top_contacts_dispatch (_service_url : Option String) (s : Store) (limit : Nat) :
    Dispatched (List (Contact × Nat)) :=
  .onLocal (get_top_contacts s limit)

/-- ContactService.bulk_add_contacts: no remote branch in the source. -/
def bulk_add_contacts_dispatch (_service_url : Option String) (s : Store)
    (names : List String) : Dispatched (Option (Store × List String × List String)) :=
  .onLocal (bulk_add_contacts s names)

/-- ContactService.search_contacts: no remote branch in the source. -/
def search_contacts_dispatch (_service_url : Option String) (s : Store) (query : String) :
    Dispatched (List Contact) :=
  .onLocal (search_contacts s query)

/-- ContactService.get_contact_with_notes: no remote branch in the source. -/
def get_contact_with_notes_dispatch (_service_url : Option String) (s : Store)
    (contact_id note_limit : Nat) : Dispatched (Option (Contact × List Note)) :=
  .onLocal (get_contact_with_notes s contact_id note_limit)

end ContactService

namespace OrganizationService

/-- OrganizationService.add_organization: no remote branch in the source. -/
def add_organization_dispatch (_service_url : Option String) (s : Store) (name : String) :
    Dispatched (Store × Option Organization × Option Err) :=
  .onLocal (add_organization s name)

/-- OrganizationService.list_organizations: no remote branch in the source. -/
def list_organizations_dispatch (_service_url : Option String) (s : Store) :
    Dispatched (List Organization) :=
  .onLocal (list_organizations s)

/-- OrganizationService.get_top_organizations: no remote branch in the
source. -/
def get_top_organizations_dispatch (_service_url : Option String) (s : Store) (limit : Nat) :
    Dispatched (List (Organization × Nat)) :=
  .onLocal (get_top_organizations s limit)

end OrganizationService

namespace TaskService

/-- TaskService.add_task: no remote branch in the source. -/
def add_task_dispatch (_service_url : Option String) (s : Store) (title : String)
    (due_date : Int) (importance : Int) (description : Option String)
    (contact_ids organization_ids : Option (List Nat)) (created_at : Int) :
    Dispatched (Store × Option Task × Option Err) :=
  .onLocal (add_task s title due_date importance description contact_ids organization_ids
    created_at)

/-- TaskService.list_tasks: no remote branch in the source. -/
def list_tasks_dispatch (_service_url : Option String) (s : Store) (limit : Nat)
    (show_completed : Bool) (contact_id organization_id : Option Nat) :
    Dispatched (List Task) :=
  .onLocal (list_tasks s limit show_completed contact_id organization_id)

/-- TaskService.get_urgent_tasks: no remote branch in the source. -/
def get_urgent_tasks_dispatch (_service_url : Option String) (s : Store) (now : Int)
    (days : Int) (sort_by : String) : Dispatched (List Task) :=
  .onLocal (get_urgent_tasks s now days sort_by)

/-- TaskService.get_task: no remote branch in the source. -/
def get_task_dispatch (_service_url : Option String) (s : Store) (task_id : Nat) :
    Dispatched (Option Task) :=
  .onLocal (get_task s task_id)

/-- TaskService.complete_task: no remote branch in the source. -/
def complete_task_dispatch (_service_url : Option String) (s : Store) (task_id : Nat) :
    Dispatched (Store × Option Task × Option Err) :=
  .onLocal (complete_task s task_id)

/-- TaskService.uncomplete_task: no remote branch in the source. -/
def uncomplete_task_dispatch (_service_url : Option String) (s : Store) (task_id : Nat) :
    Dispatched (Store × Option Task × Option Err) :=
  .onLocal (uncomplete_task s task_id)

/-- TaskService.tag_task: no remote branch in the source. -/
def tag_task_dispatch (_service_url : Option String) (s : Store) (task_id : Nat)
    (add_contact_ids add_org_ids remove_contact_ids remove_org_ids : Option (List Nat)) :
    Dispatched (Store × Option TaskChanges × Option Err) :=
  .onLocal (tag_task s task_id add_contact_ids add_org_ids remove_contact_ids remove_org_ids)

end TaskService

/-! Sample rows for the concrete witnesses and counterexamples. -/

/-- A sample contact row. -/
def adaC : Contact := ⟨1, "Ada", "Lovelace"⟩

/-- A sample organization row. -/
def acmeOrg : Organization := ⟨2, "Acme"⟩

/-- A sample task row with no associations. -/
def shipTask : Task := ⟨5, "Ship", none, 100, 3, false, 0, [], []⟩

/-- A sample note row with no associations. -/
def minutesNote : Note := ⟨10, "minutes", "body", 0, [], [], []⟩

/-- A store holding the four sample rows. -/
def store1 : Store := ⟨[adaC], [acmeOrg], [shipTask], [minutesNote]⟩

/-- A store whose note is already tagged with the sample contact. -/
def store2 : Store := ⟨[adaC], [acmeOrg], [shipTask], [⟨10, "minutes", "body", 0, [1], [], []⟩]⟩

/-- A store whose note and task are both already tagged with the sample
contact. -/
def store3 : Store :=
  ⟨[adaC], [acmeOrg], [⟨5, "Ship", none, 100, 3, false, 0, [1], [2]⟩],
   [⟨10, "minutes", "body", 0, [1], [2], [5]⟩]⟩

end CMS

namespace CMS

/-! Supporting lemmas about keyed row replacement in a table, shared by the
claim theorems. -/

/-- A successful keyed `find?` returns a row with the searched key. -/
theorem find?_key_eq {α : Type} (key : α → Nat) (l : List α) (k : Nat) (x : α)
    (h : l.find? (fun m => key m == k) = some x) : key x = k := by
  have hp := List.find?_some h
  simpa using hp

/-- A successful keyed `find?` returns a member of the table. -/
theorem find?_key_mem {α : Type} (key : α → Nat) (l : List α) (k : Nat) (x : α)
    (h : l.find? (fun m => key m == k) = some x) : x ∈ l :=
  List.mem_of_find?_eq_some h

/-- Writing a row back over itself leaves a table with unique keys
unchanged. -/
theorem replace_self_of_nodup {α : Type} (key : α → Nat) (l : List α) (x : α)
    (hnd : (l.map key).Nodup) (hx : l.find? (fun m => key m == key x) = some x) :
    l.map (fun m => if key m == key x then x else m) = l := by
  induction l with
  | nil => simp at hx
  | cons h t ih =>
    rw [List.map_cons, List.nodup_cons] at hnd
    obtain ⟨hh, ht⟩ := hnd
    by_cases hk : key h = key x
    · have hpa : (key h == key x) = true := by simpa using hk
      simp only [List.find?_cons, hpa] at hx
      injection hx with hx2
      subst hx2
      rw [List.map_cons, if_pos (by simp)]
      congr 1
      have hne : ∀ m ∈ t, ¬((key m == key h) = true) := by
        intro m hm hbeq
        exact hh (List.mem_map.mpr ⟨m, hm, by simpa using hbeq⟩)
      have hmap : t.map (fun m => if key m == key h then h else m) = t.map id := by
        apply List.map_congr_left
        intro m hm
        rw [if_neg (hne m hm)]
        rfl
      rw [hmap, List.map_id]
    · have hpa : (key h == key x) = false := by simpa using hk
      simp only [List.find?_cons, hpa] at hx
      rw [List.map_cons, if_neg (by simp [hpa]), ih ht hx]

/-- Keyed replacement never changes the key column of the table. -/
theorem map_key_replace {α : Type} (key : α → Nat) (l : List α) (x : α) :
    (l.map (fun m => if key m == key x then x else m)).map key = l.map key := by
  induction l with
  | nil => rfl
  | cons h t ih =>
    rw [List.map_cons, List.map_cons, List.map_cons, ih]
    by_cases hk : key h = key x
    · rw [if_pos (by simpa using hk), hk]
    · rw [if_neg (by simpa using hk)]

/-- After replacing the row found at key `k` by a row `y` with the same key,
the keyed `find?` returns `y`. -/
theorem find?_replace {α : Type} (key : α → Nat) (l : List α) (k : Nat) (x y : α)
    (hy : key y = k) (hx : l.find? (fun m => key m == k) = some x) :
    (l.map (fun m => if key m == key y then y else m)).find? (fun m => key m == k) =
      some y := by
  induction l with
  | nil => simp at hx
  | cons h t ih =>
    by_cases hk : key h = k
    · have h1 : (key h == key y) = true := by simp [hk, hy]
      rw [List.map_cons, if_pos h1]
      have h2 : (key y == k) = true := by simp [hy]
      simp only [List.find?_cons, h2]
    · have h0 : (key h == k) = false := by simpa using hk
      simp only [List.find?_cons, h0] at hx
      have h3 : (key h == key y) = false := by
        rw [hy]
        exact h0
      rw [List.map_cons, if_neg (by simp [h3])]
      simp only [List.find?_cons, h0]
      exact ih hx

/-- `Store.setNote` with the very note that `findNote` returned is the
identity on well-formed stores. -/
theorem setNote_self (s : Store) (n : Note) (hWF : s.WF)
    (h : s.findNote n.id = some n) : s.setNote n = s := by
  obtain ⟨-, -, -, hnd⟩ := hWF
  unfold Store.findNote at h
  unfold Store.setNote
  have := replace_self_of_nodup Note.id s.notes n hnd h
  cases s
  simp only at this ⊢
  rw [this]

/-- `Store.setTask` with the very task that `findTask` returned is the
identity on well-formed stores. -/
theorem setTask_self (s : Store) (t : Task) (hWF : s.WF)
    (h : s.findTask t.id = some t) : s.setTask t = s := by
  obtain ⟨-, -, hnd, -⟩ := hWF
  unfold Store.findTask at h
  unfold Store.setTask
  have := replace_self_of_nodup Task.id s.tasks t hnd h
  cases s
  simp only at this ⊢
  rw [this]

/-- `missingIds` is empty exactly when every listed id was found. -/
theorem missingIds_eq_nil (ids found : List Nat) :
    missingIds ids found = [] ↔ ∀ i ∈ ids, i ∈ found := by
  unfold missingIds
  rw [List.filter_eq_nil_iff]
  constructor
  · intro h i hi
    have := h i (List.mem_dedup.mpr hi)
    simpa using this
  · intro h i hi
    have := h i (List.mem_dedup.mp hi)
    simpa using this

/-- A member of `missingIds` is a listed id that was not found. -/
theorem mem_missingIds (ids found : List Nat) (i : Nat) :
    i ∈ missingIds ids found ↔ i ∈ ids ∧ i ∉ found := by
  unfold missingIds
  simp [List.mem_filter, List.mem_dedup]

/-- `setNote` preserves the id columns, hence store well-formedness. -/
theorem setNote_WF (s : Store) (n : Note) (h : s.WF) : (s.setNote n).WF := by
  obtain ⟨h1, h2, h3, h4⟩ := h
  refine ⟨h1, h2, h3, ?_⟩
  show ((s.notes.map (fun m => if m.id == n.id then n else m)).map Note.id).Nodup
  rw [map_key_replace Note.id s.notes n]
  exact h4

/-- `setTask` preserves the id columns, hence store well-formedness. -/
theorem setTask_WF (s : Store) (t : Task) (h : s.WF) : (s.setTask t).WF := by
  obtain ⟨h1, h2, h3, h4⟩ := h
  refine ⟨h1, h2, ?_, h4⟩
  show ((s.tasks.map (fun u => if u.id == t.id then t else u)).map Task.id).Nodup
  rw [map_key_replace Task.id s.tasks t]
  exact h3

/-- After committing a mutated note row, looking its id up returns the
mutated row. -/
theorem findNote_setNote (s : Store) (k : Nat) (x y : Note) (hy : y.id = k)
    (hx : s.findNote k = some x) : (s.setNote y).findNote k = some y := by
  unfold Store.findNote at hx ⊢
  unfold Store.setNote
  exact find?_replace Note.id s.notes k x y hy hx

/-- After committing a mutated task row, looking its id up returns the
mutated row. -/
theorem findTask_setTask (s : Store) (k : Nat) (x y : Task) (hy : y.id = k)
    (hx : s.findTask k = some x) : (s.setTask y).findTask k = some y := by
  unfold Store.findTask at hx ⊢
  unfold Store.setTask
  exact find?_replace Task.id s.tasks k x y hy hx

/-- The contacts add-block of tag_note fails whenever the add-list names an
id matching no contact row, with an error naming exactly the unresolved ids
of the list. -/
theorem noteAddContacts_error_of_missing (s : Store) (n : Note) (adds : List Nat)
    (hne : adds ≠ []) (i : Nat) (hi : i ∈ adds)
    (hmiss : ∀ c ∈ s.contacts, c.id ≠ i) :
    ∃ missing,
      NoteService.noteAddContacts s n (some adds) =
          .error (.contactsNotFound missing) ∧
      ∀ j, j ∈ missing ↔ j ∈ adds ∧ ∀ c ∈ s.contacts, c.id ≠ j := by
  obtain ⟨a, l, rfl⟩ : ∃ a l, adds = a :: l := by
    cases adds with
    | nil => exact absurd rfl hne
    | cons a l => exact ⟨a, l, rfl⟩
  have hchar : ∀ j, j ∈ missingIds (a :: l)
      ((s.contacts.filter (fun c => (a :: l).contains c.id)).map Contact.id) ↔
      j ∈ (a :: l) ∧ ∀ c ∈ s.contacts, c.id ≠ j := by
    intro j
    rw [mem_missingIds]
    constructor
    · rintro ⟨hj, hnf⟩
      refine ⟨hj, fun c hc he => hnf ?_⟩
      refine List.mem_map.mpr ⟨c, List.mem_filter.mpr ⟨hc, ?_⟩, he⟩
      simp only [he]
      simpa using hj
    · rintro ⟨hj, hall⟩
      refine ⟨hj, fun hf => ?_⟩
      rw [List.mem_map] at hf
      obtain ⟨c, hcf, hcid⟩ := hf
      exact hall c (List.mem_filter.mp hcf).1 hcid
  have hmm : i ∈ missingIds (a :: l)
      ((s.contacts.filter (fun c => (a :: l).contains c.id)).map Contact.id) :=
    (hchar i).mpr ⟨hi, hmiss⟩
  have hne2 : (missingIds (a :: l)
      ((s.contacts.filter (fun c => (a :: l).contains c.id)).map Contact.id)).isEmpty
        = false := by
    cases hl : missingIds (a :: l)
        ((s.contacts.filter (fun c => (a :: l).contains c.id)).map Contact.id) with
    | nil =>
      rw [hl] at hmm
      simp at hmm
    | cons b m => rfl
  refine ⟨_, ?_, hchar⟩
  unfold NoteService.noteAddContacts
  simp only [truthyList, Option.getD, if_true, hne2]
  rfl

end CMS

namespace CMS

/-! ## C1 -/

/-- C1: the claim is false on the code.  Tagging note 10 with a valid
contact add (id 1) and a nonexistent organization add (id 99) returns the
reference error, yet the contact association is committed: the note's
contact set changes from `[]` to `[1]`. -/
theorem C1_counterexample :
    (NoteService.tag_note store1 10 (some [1]) none (some [99]) none none none).2.2 =
        some (Err.orgsNotFound [99]) ∧
    ((NoteService.tag_note store1 10 (some [1]) none (some [99]) none none none).1.findNote
        10).map Note.contacts = some [1] ∧
    (store1.findNote 10).map Note.contacts = some [] := by
  decide

/-- C1 (amended): when the nonexistent reference sits in the contacts
add-list — the first association kind tag_note processes — the call fails
with the missing ids and commits nothing: the store is returned unchanged,
whatever other add/remove instructions the call carries.  (For a missing
reference in a later-processed kind, changes already applied for earlier
kinds are committed, as the counterexample shows; task tagging performs no
reference validation at all.) -/
theorem C1_missing_contact_ref_commits_nothing
    (s : Store) (hWF : s.WF) (note_id : Nat) (n : Note)
    (hfind : s.findNote note_id = some n)
    (adds : List Nat) (hne : adds ≠ [])
    (i : Nat) (hi : i ∈ adds) (hmiss : ∀ c ∈ s.contacts, c.id ≠ i)
    (rc ao ro at1 rt : Option (List Nat)) :
    ∃ missing, i ∈ missing ∧
      NoteService.tag_note s note_id (some adds) rc ao ro at1 rt =
        (s, none, some (Err.contactsNotFound missing)) := by
  obtain ⟨missing, herr, hchar⟩ :=
    noteAddContacts_error_of_missing s n adds hne i hi hmiss
  refine ⟨missing, (hchar i).mpr ⟨hi, hmiss⟩, ?_⟩
  have hnid : n.id = note_id := find?_key_eq Note.id s.notes note_id n hfind
  have hset : s.setNote n = s := setNote_self s n hWF (by rw [hnid]; exact hfind)
  unfold NoteService.tag_note
  rw [hfind]
  simp only [herr, hset]

/-- Concrete instance of C1's amended theorem: tagging note 10 of `store1`
with nonexistent contact 99 fails and leaves the store untouched. -/
theorem C1_missing_contact_ref_commits_nothing_witness :
    ∃ missing, 99 ∈ missing ∧
      NoteService.tag_note store1 10 (some [99]) none none none none none =
        (store1, none, some (Err.contactsNotFound missing)) :=
  C1_missing_contact_ref_commits_nothing store1 (by decide) 10 minutesNote
    (by decide) [99] (by decide) 99 (by decide) (by decide) none none none none none

/-! ## C2 -/

/-- C2: the claim is false on the code for task tagging.  Tagging task 5 of
`store1` with add-list `[1, 99]`, where contact 99 does not exist, returns no
reference-not-found error at all: the call succeeds with a diff and the
resolvable id 1 *is* added to the task's contact set. -/
theorem C2_counterexample :
    (TaskService.tag_task store1 5 (some [1, 99]) none none none).2.2 = none ∧
    (TaskService.tag_task store1 5 (some [1, 99]) none none none).2.1 =
        some ⟨["Ada Lovelace"], [], [], []⟩ ∧
    ((TaskService.tag_task store1 5 (some [1, 99]) none none none).1.findTask 5).map
        Task.contacts = some [1] := by
  decide

/-- C2 (amended): only note tagging validates references.  A note-tagging
call whose contacts add-list (the first kind processed) contains an
unresolvable id fails as a whole with an error naming exactly the unresolved
ids of that list, returns no diff, and adds nothing — the store is returned
unchanged; a task-tagging call with an add-list never returns an error once
the target task exists. -/
theorem C2_note_errors_task_does_not
    (s : Store) (hWF : s.WF) (note_id : Nat) (n : Note)
    (hfind : s.findNote note_id = some n)
    (adds : List Nat) (i : Nat) (hi : i ∈ adds)
    (hmiss : ∀ c ∈ s.contacts, c.id ≠ i)
    (rc ao ro at1 rt : Option (List Nat))
    (task_id : Nat) (t : Task) (htfind : s.findTask task_id = some t)
    (taskAdds : List Nat) :
    (∃ missing,
      NoteService.tag_note s note_id (some adds) rc ao ro at1 rt =
          (s, none, some (Err.contactsNotFound missing)) ∧
      ∀ j, j ∈ missing ↔ j ∈ adds ∧ ∀ c ∈ s.contacts, c.id ≠ j) ∧
    (TaskService.tag_task s task_id (some taskAdds) none none none).2.2 = none := by
  constructor
  · obtain ⟨missing, herr, hchar⟩ :=
      noteAddContacts_error_of_missing s n adds (List.ne_nil_of_mem hi) i hi hmiss
    have hnid : n.id = note_id := find?_key_eq Note.id s.notes note_id n hfind
    have hset : s.setNote n = s := setNote_self s n hWF (by rw [hnid]; exact hfind)
    refine ⟨missing, ?_, hchar⟩
    unfold NoteService.tag_note
    rw [hfind]
    simp only [herr, hset]
  · unfold TaskService.tag_task
    rw [htfind]

/-- Concrete instance of C2's amended theorem on `store1`: the note call
fails naming exactly `{99}`, the task call returns no error. -/
theorem C2_note_errors_task_does_not_witness :
    (∃ missing,
      NoteService.tag_note store1 10 (some [1, 99]) none none none none none =
          (store1, none, some (Err.contactsNotFound missing)) ∧
      ∀ j, j ∈ missing ↔ j ∈ [1, 99] ∧ ∀ c ∈ store1.contacts, c.id ≠ j) ∧
    (TaskService.tag_task store1 5 (some [1, 99]) none none none).2.2 = none :=
  C2_note_errors_task_does_not store1 (by decide) 10 minutesNote (by decide)
    [1, 99] 99 (by decide) (by decide) none none none none none 5 shipTask
    (by decide) [1, 99]

/-! ## C3 -/

/-- Filtering out ids disjoint from the association list keeps every
element. -/
theorem filter_not_contains_of_disjoint (cur ids : List Nat)
    (hdisj : ∀ i ∈ ids, i ∉ cur) : cur.filter (fun i => !ids.contains i) = cur := by
  rw [List.filter_eq_self]
  intro x hx
  simp only [Bool.not_eq_true']
  by_contra hcon
  rw [Bool.not_eq_false] at hcon
  exact hdisj x (by simpa using hcon) hx

/-- Ids disjoint from the association list select nothing from it. -/
theorem filter_contains_of_disjoint (cur ids : List Nat)
    (hdisj : ∀ i ∈ ids, i ∉ cur) : cur.filter (fun i => ids.contains i) = [] := by
  rw [List.filter_eq_nil_iff]
  intro x hx hc
  exact hdisj x (by simpa using hc) hx

/-- Filtering by membership in the empty id list selects nothing. -/
theorem filter_contains_nil {α : Type} (key : α → Nat) (l : List α) :
    l.filter (fun x => ([] : List Nat).contains (key x)) = [] := by
  rw [List.filter_eq_nil_iff]
  intro x hx hb
  simp at hb

/-- Removing ids none of which is associated leaves the note's
contact-remove block (note_service.py 236-246) a no-op with an empty removed
list. -/
theorem noteRemoveContacts_noop (s : Store) (n : Note) (o : Option (List Nat))
    (hdisj : ∀ i ∈ o.getD [], i ∉ n.contacts) :
    NoteService.noteRemoveContacts s n o = (n, []) := by
  cases o with
  | none => rfl
  | some rids =>
    cases rids with
    | nil => rfl
    | cons a l =>
      unfold NoteService.noteRemoveContacts
      have h1 := filter_not_contains_of_disjoint n.contacts (a :: l) hdisj
      have h2 := filter_contains_of_disjoint n.contacts (a :: l) hdisj
      simp only [truthyList, Option.getD, if_true, h1, h2, List.map_nil]

/-- Removing ids none of which is associated leaves the note's
organization-remove block (note_service.py 271-281) a no-op with an empty
removed list. -/
theorem noteRemoveOrgs_noop (s : Store) (n : Note) (o : Option (List Nat))
    (hdisj : ∀ i ∈ o.getD [], i ∉ n.organizations) :
    NoteService.noteRemoveOrgs s n o = (n, []) := by
  cases o with
  | none => rfl
  | some rids =>
    cases rids with
    | nil => rfl
    | cons a l =>
      unfold NoteService.noteRemoveOrgs
      have h1 := filter_not_contains_of_disjoint n.organizations (a :: l) hdisj
      have h2 := filter_contains_of_disjoint n.organizations (a :: l) hdisj
      simp only [truthyList, Option.getD, if_true, h1, h2, List.map_nil]

/-- Removing ids none of which is associated leaves the note's task-remove
block (note_service.py 304-310) a no-op with an empty removed list. -/
theorem noteRemoveTasks_noop (s : Store) (n : Note) (o : Option (List Nat))
    (hdisj : ∀ i ∈ o.getD [], i ∉ n.tasks) :
    NoteService.noteRemoveTasks s n o = (n, []) := by
  cases o with
  | none => rfl
  | some rids =>
    cases rids with
    | nil => rfl
    | cons a l =>
      unfold NoteService.noteRemoveTasks
      have h1 := filter_not_contains_of_disjoint n.tasks (a :: l) hdisj
      have h2 := filter_contains_of_disjoint n.tasks (a :: l) hdisj
      simp only [truthyList, Option.getD, if_true, h1, h2, List.map_nil]

/-- C3: the claim is false on the code for task tagging.  Task 5 of `store1`
has no contact associations, yet removing contact id 1 (which exists in the
store but is not associated) reports "Ada Lovelace" in the diff's removed
list; the association set is unchanged. -/
theorem C3_counterexample :
    (TaskService.tag_task store1 5 none none (some [1]) none).2.1 =
        some ⟨[], ["Ada Lovelace"], [], []⟩ ∧
    ((TaskService.tag_task store1 5 none none (some [1]) none).1.findTask 5).map
        Task.contacts = some [] ∧
    (store1.findTask 5).map Task.contacts = some [] := by
  decide

/-- C3 (amended): for every association kind, a remove-only call whose ids
are not currently associated never errors and never changes any association
set.  A note call may carry contact, organization and task remove-lists at
once (an empty or omitted list is the untouched kind); its diff's removed
lists are all empty, as claimed.  A task call may carry contact and
organization remove-lists; the sets are likewise unchanged, but each removed
list reports the name of every store row whose id appears in the
corresponding remove-list, associated or not. -/
theorem C3_remove_unassociated
    (s : Store) (hWF : s.WF)
    (note_id : Nat) (n : Note) (hfind : s.findNote note_id = some n)
    (rc ro rt : Option (List Nat))
    (hdc : ∀ i ∈ rc.getD [], i ∉ n.contacts)
    (hdo : ∀ i ∈ ro.getD [], i ∉ n.organizations)
    (hdt : ∀ i ∈ rt.getD [], i ∉ n.tasks)
    (task_id : Nat) (t : Task) (htfind : s.findTask task_id = some t)
    (trc tro : List Nat)
    (htdc : ∀ i ∈ trc, i ∉ t.contacts) (htdo : ∀ i ∈ tro, i ∉ t.organizations) :
    NoteService.tag_note s note_id none rc none ro none rt =
        (s, some Changes.empty, none) ∧
    TaskService.tag_task s task_id none none (some trc) (some tro) =
        (s, some ⟨[], (s.contacts.filter (fun c => trc.contains c.id)).map contactName,
            [], (s.organizations.filter (fun g => tro.contains g.id)).map
              Organization.name⟩, none) := by
  have hnid : n.id = note_id := find?_key_eq Note.id s.notes note_id n hfind
  have hset : s.setNote n = s := setNote_self s n hWF (by rw [hnid]; exact hfind)
  have htid : t.id = task_id := find?_key_eq Task.id s.tasks task_id t htfind
  have hsetT : s.setTask t = s := setTask_self s t hWF (by rw [htid]; exact htfind)
  constructor
  · have hrc := noteRemoveContacts_noop s n rc hdc
    have hro := noteRemoveOrgs_noop s n ro hdo
    have hrt := noteRemoveTasks_noop s n rt hdt
    have hcallN : NoteService.tag_note s note_id none rc none ro none rt =
        (s.setNote (NoteService.noteRemoveTasks s
            (NoteService.noteRemoveOrgs s
              (NoteService.noteRemoveContacts s n rc).1 ro).1 rt).1,
         some ⟨[], (NoteService.noteRemoveContacts s n rc).2,
              [], (NoteService.noteRemoveOrgs s
                    (NoteService.noteRemoveContacts s n rc).1 ro).2,
              [], (NoteService.noteRemoveTasks s
                    (NoteService.noteRemoveOrgs s
                      (NoteService.noteRemoveContacts s n rc).1 ro).1 rt).2⟩,
         none) := by
      unfold NoteService.tag_note
      rw [hfind]
      rfl
    rw [hcallN]
    simp only [hrc, hro, hrt]
    show (s.setNote n, some Changes.empty, none) = (s, some Changes.empty, none)
    rw [hset]
  · cases trc with
    | nil =>
      cases tro with
      | nil =>
        have hc : TaskService.tag_task s task_id none none (some []) (some []) =
            (s.setTask t, some ⟨[], [], [], []⟩, none) := by
          unfold TaskService.tag_task
          rw [htfind]
          rfl
        rw [hc, filter_contains_nil Contact.id s.contacts,
          filter_contains_nil Organization.id s.organizations]
        show (s.setTask t, some (⟨[], [], [], []⟩ : TaskChanges), none) =
          (s, some (⟨[], List.map contactName [], [],
            List.map Organization.name []⟩ : TaskChanges), none)
        rw [hsetT]
        rfl
      | cons c2 k =>
        have h2 := filter_not_contains_of_disjoint t.organizations (c2 :: k) htdo
        have hc : TaskService.tag_task s task_id none none (some []) (some (c2 :: k)) =
            (s.setTask { t with organizations :=
                t.organizations.filter (fun i => !(c2 :: k).contains i) },
             some ⟨[], [], [], (s.organizations.filter
                (fun g => (c2 :: k).contains g.id)).map Organization.name⟩, none) := by
          unfold TaskService.tag_task
          rw [htfind]
          rfl
        rw [hc, h2, filter_contains_nil Contact.id s.contacts]
        show (s.setTask t, some (⟨[], [], [], (s.organizations.filter
            (fun g => (c2 :: k).contains g.id)).map Organization.name⟩ :
              TaskChanges), none) =
          (s, some (⟨[], List.map contactName [], [], (s.organizations.filter
            (fun g => (c2 :: k).contains g.id)).map Organization.name⟩ :
              TaskChanges), none)
        rw [hsetT]
        rfl
    | cons b m =>
      have h1 := filter_not_contains_of_disjoint t.contacts (b :: m) htdc
      cases tro with
      | nil =>
        have hc : TaskService.tag_task s task_id none none (some (b :: m)) (some []) =
            (s.setTask { t with contacts :=
                t.contacts.filter (fun i => !(b :: m).contains i) },
             some ⟨[], (s.contacts.filter
                (fun c => (b :: m).contains c.id)).map contactName, [], []⟩, none) := by
          unfold TaskService.tag_task
          rw [htfind]
          rfl
        rw [hc, h1, filter_contains_nil Organization.id s.organizations]
        show (s.setTask t, some (⟨[], (s.contacts.filter
            (fun c => (b :: m).contains c.id)).map contactName, [], []⟩ :
              TaskChanges), none) =
          (s, some (⟨[], (s.contacts.filter
            (fun c => (b :: m).contains c.id)).map contactName, [],
            List.map Organization.name []⟩ : TaskChanges), none)
        rw [hsetT]
        rfl
      | cons c2 k =>
        have h2 := filter_not_contains_of_disjoint t.organizations (c2 :: k) htdo
        have hc : TaskService.tag_task s task_id none none
            (some (b :: m)) (some (c2 :: k)) =
            (s.setTask { t with
                contacts := t.contacts.filter (fun i => !(b :: m).contains i),
                organizations :=
                  t.organizations.filter (fun i => !(c2 :: k).contains i) },
             some ⟨[], (s.contacts.filter
                  (fun c => (b :: m).contains c.id)).map contactName,
                [], (s.organizations.filter
                  (fun g => (c2 :: k).contains g.id)).map Organization.name⟩,
             none) := by
          unfold TaskService.tag_task
          rw [htfind]
          rfl
        rw [hc, h1, h2]
        show (s.setTask t, some (⟨[], (s.contacts.filter
            (fun c => (b :: m).contains c.id)).map contactName,
            [], (s.organizations.filter
            (fun g => (c2 :: k).contains g.id)).map Organization.name⟩ :
              TaskChanges), none) =
          (s, some (⟨[], (s.contacts.filter
            (fun c => (b :: m).contains c.id)).map contactName,
            [], (s.organizations.filter
            (fun g => (c2 :: k).contains g.id)).map Organization.name⟩ :
              TaskChanges), none)
        rw [hsetT]

/-- Concrete instance of C3's amended theorem on `store1`: removing the
unassociated contact 1, organization 2 and task 5 from note 10 changes
nothing with an empty diff, while the same removals on task 5 change nothing
but name "Ada Lovelace" and "Acme" in the diff. -/
theorem C3_remove_unassociated_witness :
    NoteService.tag_note store1 10 none (some [1]) none (some [2]) none (some [5]) =
        (store1, some Changes.empty, none) ∧
    TaskService.tag_task store1 5 none none (some [1]) (some [2]) =
        (store1, some ⟨[], (store1.contacts.filter (fun c => [1].contains c.id)).map
              contactName,
            [], (store1.organizations.filter (fun g => [2].contains g.id)).map
              Organization.name⟩, none) :=
  C3_remove_unassociated store1 (by decide) 10 minutesNote (by decide)
    (some [1]) (some [2]) (some [5]) (by decide) (by decide) (by decide)
    5 shipTask (by decide) [1] [2] (by decide) (by decide)

/-! ## C4 -/

/-- Unfolding equation for the tag_task contact loop on an empty row list. -/
theorem taskAddContactsLoop_nil (cur : List Nat) (names : List String) :
    TaskService.taskAddContactsLoop cur names [] = (cur, names) := rfl

/-- Unfolding equation for the tag_task contact loop on a row list. -/
theorem taskAddContactsLoop_cons (cur : List Nat) (names : List String)
    (c : Contact) (rest : List Contact) :
    TaskService.taskAddContactsLoop cur names (c :: rest) =
      if cur.contains c.id then TaskService.taskAddContactsLoop cur names rest
      else TaskService.taskAddContactsLoop (cur ++ [c.id])
        (names ++ [contactName c]) rest := rfl

/-- The tag_task contact loop only ever appends: the incoming association
ids survive. -/
theorem taskAddContactsLoop_sub (objs : List Contact) (cur : List Nat)
    (names : List String) :
    ∀ i ∈ cur, i ∈ (TaskService.taskAddContactsLoop cur names objs).1 := by
  induction objs generalizing cur names with
  | nil =>
    intro i hi
    rw [taskAddContactsLoop_nil]
    exact hi
  | cons c rest ih =>
    intro i hi
    rw [taskAddContactsLoop_cons]
    by_cases hc : cur.contains c.id = true
    · rw [if_pos hc]
      exact ih cur names i hi
    · rw [if_neg hc]
      exact ih (cur ++ [c.id]) (names ++ [contactName c]) i (List.mem_append_left _ hi)

/-- After the tag_task contact loop, every processed row's id is
associated. -/
theorem taskAddContactsLoop_mem (objs : List Contact) (cur : List Nat)
    (names : List String) :
    ∀ c ∈ objs, c.id ∈ (TaskService.taskAddContactsLoop cur names objs).1 := by
  induction objs generalizing cur names with
  | nil =>
    intro c hc
    simp at hc
  | cons d rest ih =>
    intro c hc
    rw [taskAddContactsLoop_cons]
    rcases List.mem_cons.mp hc with rfl | hcr
    · by_cases hd : cur.contains c.id = true
      · rw [if_pos hd]
        exact taskAddContactsLoop_sub rest cur names c.id (by simpa using hd)
      · rw [if_neg hd]
        exact taskAddContactsLoop_sub rest _ _ c.id
          (List.mem_append_right _ (List.mem_singleton.mpr rfl))
    · by_cases hd : cur.contains d.id = true
      · rw [if_pos hd]
        exact ih cur names c hcr
      · rw [if_neg hd]
        exact ih _ _ c hcr

/-- The tag_task contact loop is a no-op once every processed row is already
associated. -/
theorem taskAddContactsLoop_noop (objs : List Contact) (cur : List Nat)
    (names : List String) (h : ∀ c ∈ objs, c.id ∈ cur) :
    TaskService.taskAddContactsLoop cur names objs = (cur, names) := by
  induction objs with
  | nil => rfl
  | cons d rest ih =>
    have hd : cur.contains d.id = true := by
      simpa using h d (List.mem_cons_self d rest)
    rw [taskAddContactsLoop_cons, if_pos hd]
    exact ih (fun c hc => h c (List.mem_cons_of_mem d hc))

/-- Unfolding equation for tag_note's contact add-block on a truthy list. -/
theorem noteAddContacts_cons (s : Store) (n : Note) (a : Nat) (l : List Nat) :
    NoteService.noteAddContacts s n (some (a :: l)) =
      (if (missingIds (a :: l)
            ((s.contacts.filter (fun c => (a :: l).contains c.id)).map Contact.id)).isEmpty
       then
        .ok ({ n with contacts := n.contacts ++
                ((s.contacts.filter (fun c => (a :: l).contains c.id)).filter
                  (fun c => !n.contacts.contains c.id)).map Contact.id },
             ((s.contacts.filter (fun c => (a :: l).contains c.id)).filter
                  (fun c => !n.contacts.contains c.id)).map contactName)
       else .error (.contactsNotFound (missingIds (a :: l)
            ((s.contacts.filter (fun c => (a :: l).contains c.id)).map Contact.id)))) := rfl

/-- When every id of the add-list resolves, tag_note's contact add-block
succeeds, appending exactly the resolved rows not already associated. -/
theorem noteAddContacts_ok_of_resolvable (s : Store) (n : Note) (a : Nat) (l : List Nat)
    (hres : ∀ i ∈ a :: l, ∃ c ∈ s.contacts, c.id = i) :
    NoteService.noteAddContacts s n (some (a :: l)) =
      .ok ({ n with contacts := n.contacts ++
              ((s.contacts.filter (fun c => (a :: l).contains c.id)).filter
                (fun c => !n.contacts.contains c.id)).map Contact.id },
           ((s.contacts.filter (fun c => (a :: l).contains c.id)).filter
                (fun c => !n.contacts.contains c.id)).map contactName) := by
  rw [noteAddContacts_cons]
  have hnil : missingIds (a :: l)
      ((s.contacts.filter (fun c => (a :: l).contains c.id)).map Contact.id) = [] := by
    rw [missingIds_eq_nil]
    intro i hi
    obtain ⟨c, hc, hcid⟩ := hres i hi
    refine List.mem_map.mpr ⟨c, List.mem_filter.mpr ⟨hc, ?_⟩, hcid⟩
    simp only [hcid]
    simpa using hi
  rw [hnil]
  rfl

/-- When the contact add-block succeeds, tag_note with only a contact
add-list commits the block's result and reports its added names. -/
theorem tag_note_add_only_ok (s : Store) (note_id : Nat) (n : Note)
    (hfind : s.findNote note_id = some n) (o : Option (List Nat))
    (n1 : Note) (names : List String)
    (hok : NoteService.noteAddContacts s n o = .ok (n1, names)) :
    NoteService.tag_note s note_id o none none none none none =
      (s.setNote n1, some ⟨names, [], [], [], [], []⟩, none) := by
  unfold NoteService.tag_note
  simp only [hfind, hok]
  rfl

/-- When the contact add-block fails, tag_note with only a contact add-list
returns the error and commits the unmodified note row. -/
theorem tag_note_add_only_error (s : Store) (note_id : Nat) (n : Note)
    (hfind : s.findNote note_id = some n) (o : Option (List Nat)) (e : Err)
    (herr : NoteService.noteAddContacts s n o = .error e) :
    NoteService.tag_note s note_id o none none none none none =
      (s.setNote n, none, some e) := by
  unfold NoteService.tag_note
  simp only [hfind, herr]

/-- tag_task with only a contact add-list reduces to the contact loop
followed by a commit. -/
theorem tag_task_add_only (s : Store) (task_id : Nat) (t : Task)
    (htfind : s.findTask task_id = some t) (a : Nat) (l : List Nat) :
    TaskService.tag_task s task_id (some (a :: l)) none none none =
      (s.setTask { t with
          contacts := (TaskService.taskAddContactsLoop t.contacts []
            (s.contacts.filter (fun c => (a :: l).contains c.id))).1 },
       some ⟨(TaskService.taskAddContactsLoop t.contacts []
            (s.contacts.filter (fun c => (a :: l).contains c.id))).2, [], [], []⟩,
       none) := by
  unfold TaskService.tag_task
  rw [htfind]
  rfl

/-- Rows already covered by an association list extended with exactly the
uncovered rows are all covered: the re-run filter is empty. -/
theorem filter_not_contains_append_nil {α : Type} (key : α → Nat)
    (objs : List α) (cur : List Nat) :
    objs.filter (fun c =>
      !((cur ++ (objs.filter (fun c => !cur.contains (key c))).map key).contains (key c)))
      = [] := by
  rw [List.filter_eq_nil_iff]
  intro c hc hb
  rw [Bool.not_eq_true'] at hb
  have hnot : key c ∉ cur ++ (objs.filter (fun c => !cur.contains (key c))).map key := by
    simpa using hb
  rw [List.mem_append] at hnot
  push_neg at hnot
  obtain ⟨h1, h2⟩ := hnot
  exact h2 (List.mem_map.mpr ⟨c, List.mem_filter.mpr ⟨hc, by simpa using h1⟩, rfl⟩)

/-- Re-running an add-only tag_note call leaves the committed store fixed. -/
theorem tag_note_add_idem (s : Store) (hWF : s.WF) (note_id : Nat) (n : Note)
    (hfind : s.findNote note_id = some n) (ids : List Nat) :
    (NoteService.tag_note
        ((NoteService.tag_note s note_id (some ids) none none none none none).1)
        note_id (some ids) none none none none none).1 =
      (NoteService.tag_note s note_id (some ids) none none none none none).1 := by
  have hnid : n.id = note_id := find?_key_eq Note.id s.notes note_id n hfind
  have hset : s.setNote n = s := setNote_self s n hWF (by rw [hnid]; exact hfind)
  cases ids with
  | nil =>
    have hok0 : NoteService.noteAddContacts s n (some []) = .ok (n, []) := rfl
    have hc1 : (NoteService.tag_note s note_id (some []) none none none none none).1 = s := by
      rw [tag_note_add_only_ok s note_id n hfind (some []) n [] hok0]
      exact hset
    rw [hc1]
    exact hc1
  | cons a l =>
    by_cases hm : ∀ i ∈ a :: l, ∃ c ∈ s.contacts, c.id = i
    · have hok := noteAddContacts_ok_of_resolvable s n a l hm
      set n1 : Note := { n with contacts := n.contacts ++
          ((s.contacts.filter (fun c => (a :: l).contains c.id)).filter
            (fun c => !n.contacts.contains c.id)).map Contact.id } with hn1
      have hc1 := tag_note_add_only_ok s note_id n hfind (some (a :: l)) n1 _ hok
      have hfind1 : (s.setNote n1).findNote note_id = some n1 :=
        findNote_setNote s note_id n n1 (show n1.id = note_id from hnid) hfind
      have hWF1 : (s.setNote n1).WF := setNote_WF s n1 hWF
      have hres1 : ∀ i ∈ a :: l, ∃ c ∈ (s.setNote n1).contacts, c.id = i := hm
      have hok2 := noteAddContacts_ok_of_resolvable (s.setNote n1) n1 a l hres1
      have hstep : ((s.setNote n1).contacts.filter (fun c => (a :: l).contains c.id)).filter
          (fun c => !n1.contacts.contains c.id) = [] := by
        have hsc : (s.setNote n1).contacts = s.contacts := rfl
        have hn1c : n1.contacts = n.contacts ++
            ((s.contacts.filter (fun c => (a :: l).contains c.id)).filter
              (fun c => !n.contacts.contains c.id)).map Contact.id := rfl
        rw [hsc]
        simp only [hn1c]
        exact filter_not_contains_append_nil Contact.id
          (s.contacts.filter (fun c => (a :: l).contains c.id)) n.contacts
      have hok2a : NoteService.noteAddContacts (s.setNote n1) n1 (some (a :: l)) =
          .ok (n1, []) := by
        rw [hok2, hstep]
        simp only [List.map_nil, List.append_nil]
      have hc2 := tag_note_add_only_ok (s.setNote n1) note_id n1 hfind1 (some (a :: l))
        n1 [] hok2a
      have hset2 : (s.setNote n1).setNote n1 = s.setNote n1 :=
        setNote_self (s.setNote n1) n1 hWF1
          (by rw [show n1.id = note_id from hnid]; exact hfind1)
      rw [hc1]
      show (NoteService.tag_note (s.setNote n1) note_id (some (a :: l))
          none none none none none).1 = s.setNote n1
      rw [hc2]
      exact hset2
    · push_neg at hm
      obtain ⟨i, hi, hmiss⟩ := hm
      obtain ⟨missing, herr, -⟩ :=
        noteAddContacts_error_of_missing s n (a :: l) (by simp) i hi hmiss
      have hc1 : (NoteService.tag_note s note_id (some (a :: l))
          none none none none none).1 = s := by
        rw [tag_note_add_only_error s note_id n hfind (some (a :: l)) _ herr]
        exact hset
      rw [hc1]
      exact hc1

/-- Re-running an add-only tag_task call leaves the committed store fixed. -/
theorem tag_task_add_idem (s : Store) (hWF : s.WF) (task_id : Nat) (t : Task)
    (htfind : s.findTask task_id = some t) (tids : List Nat) :
    (TaskService.tag_task
        ((TaskService.tag_task s task_id (some tids) none none none).1)
        task_id (some tids) none none none).1 =
      (TaskService.tag_task s task_id (some tids) none none none).1 := by
  have htid : t.id = task_id := find?_key_eq Task.id s.tasks task_id t htfind
  have hsetT : s.setTask t = s := setTask_self s t hWF (by rw [htid]; exact htfind)
  cases tids with
  | nil =>
    have hc1 : (TaskService.tag_task s task_id (some []) none none none).1 = s := by
      have hc : TaskService.tag_task s task_id (some []) none none none =
          (s.setTask t, some TaskChanges.empty, none) := by
        unfold TaskService.tag_task
        rw [htfind]
        rfl
      rw [hc]
      exact hsetT
    rw [hc1]
    exact hc1
  | cons a l =>
    have hc1 := tag_task_add_only s task_id t htfind a l
    set t1 : Task := { t with contacts := (TaskService.taskAddContactsLoop t.contacts []
        (s.contacts.filter (fun c => (a :: l).contains c.id))).1 } with ht1
    have hfind1 : (s.setTask t1).findTask task_id = some t1 :=
      findTask_setTask s task_id t t1 (show t1.id = task_id from htid) htfind
    have hWF1 : (s.setTask t1).WF := setTask_WF s t1 hWF
    have hc2 := tag_task_add_only (s.setTask t1) task_id t1 hfind1 a l
    have hnoop : TaskService.taskAddContactsLoop t1.contacts []
        ((s.setTask t1).contacts.filter (fun c => (a :: l).contains c.id)) =
          (t1.contacts, []) := by
      apply taskAddContactsLoop_noop
      intro c hc
      exact taskAddContactsLoop_mem
        (s.contacts.filter (fun c => (a :: l).contains c.id)) t.contacts [] c hc
    have hset2 : (s.setTask t1).setTask t1 = s.setTask t1 :=
      setTask_self (s.setTask t1) t1 hWF1
        (by rw [show t1.id = task_id from htid]; exact hfind1)
    rw [hc1]
    show (TaskService.tag_task (s.setTask t1) task_id (some (a :: l)) none none none).1 =
      s.setTask t1
    rw [hc2, hnoop]
    exact hset2

/-- Unfolding equation for tag_note's organization add-block on a truthy
list (note_service.py 248-269). -/
theorem noteAddOrgs_cons (s : Store) (n : Note) (a : Nat) (l : List Nat) :
    NoteService.noteAddOrgs s n (some (a :: l)) =
      (if (missingIds (a :: l)
            ((s.organizations.filter (fun g => (a :: l).contains g.id)).map
              Organization.id)).isEmpty
       then
        .ok ({ n with organizations := n.organizations ++
                ((s.organizations.filter (fun g => (a :: l).contains g.id)).filter
                  (fun g => !n.organizations.contains g.id)).map Organization.id },
             ((s.organizations.filter (fun g => (a :: l).contains g.id)).filter
                  (fun g => !n.organizations.contains g.id)).map Organization.name)
       else .error (.orgsNotFound (missingIds (a :: l)
            ((s.organizations.filter (fun g => (a :: l).contains g.id)).map
              Organization.id)))) := rfl

/-- When every id of the org add-list resolves, tag_note's organization
add-block succeeds, appending exactly the resolved rows not already
associated. -/
theorem noteAddOrgs_ok_of_resolvable (s : Store) (n : Note) (a : Nat) (l : List Nat)
    (hres : ∀ i ∈ a :: l, ∃ g ∈ s.organizations, g.id = i) :
    NoteService.noteAddOrgs s n (some (a :: l)) =
      .ok ({ n with organizations := n.organizations ++
              ((s.organizations.filter (fun g => (a :: l).contains g.id)).filter
                (fun g => !n.organizations.contains g.id)).map Organization.id },
           ((s.organizations.filter (fun g => (a :: l).contains g.id)).filter
                (fun g => !n.organizations.contains g.id)).map Organization.name) := by
  rw [noteAddOrgs_cons]
  have hnil : missingIds (a :: l)
      ((s.organizations.filter (fun g => (a :: l).contains g.id)).map Organization.id)
        = [] := by
    rw [missingIds_eq_nil]
    intro i hi
    obtain ⟨g, hg, hgid⟩ := hres i hi
    refine List.mem_map.mpr ⟨g, List.mem_filter.mpr ⟨hg, ?_⟩, hgid⟩
    simp only [hgid]
    simpa using hi
  rw [hnil]
  rfl

/-- tag_note's organization add-block fails whenever the add-list names an
id matching no organization row. -/
theorem noteAddOrgs_error_of_missing (s : Store) (n : Note) (a : Nat) (l : List Nat)
    (i : Nat) (hi : i ∈ a :: l) (hmiss : ∀ g ∈ s.organizations, g.id ≠ i) :
    ∃ missing, NoteService.noteAddOrgs s n (some (a :: l)) =
      .error (.orgsNotFound missing) := by
  rw [noteAddOrgs_cons]
  have hnotfound : i ∉ (s.organizations.filter
      (fun g => (a :: l).contains g.id)).map Organization.id := by
    intro hmem
    rw [List.mem_map] at hmem
    obtain ⟨g, hgf, hgid⟩ := hmem
    exact hmiss g (List.mem_filter.mp hgf).1 hgid
  have hmm : i ∈ missingIds (a :: l)
      ((s.organizations.filter (fun g => (a :: l).contains g.id)).map Organization.id) :=
    (mem_missingIds _ _ _).mpr ⟨hi, hnotfound⟩
  have hne2 : (missingIds (a :: l)
      ((s.organizations.filter (fun g => (a :: l).contains g.id)).map
        Organization.id)).isEmpty = false := by
    cases hl : missingIds (a :: l)
        ((s.organizations.filter (fun g => (a :: l).contains g.id)).map
          Organization.id) with
    | nil =>
      rw [hl] at hmm
      simp at hmm
    | cons b m => rfl
  rw [if_neg (by rw [hne2]; exact Bool.false_ne_true)]
  exact ⟨_, rfl⟩

/-- When the organization add-block succeeds, tag_note with only an org
add-list commits the block's result and reports its added names. -/
theorem tag_note_add_orgs_only_ok (s : Store) (note_id : Nat) (n : Note)
    (hfind : s.findNote note_id = some n) (o : Option (List Nat))
    (n1 : Note) (names : List String)
    (hok : NoteService.noteAddOrgs s n o = .ok (n1, names)) :
    NoteService.tag_note s note_id none none o none none none =
      (s.setNote n1, some ⟨[], [], names, [], [], []⟩, none) := by
  have e1 : NoteService.noteAddContacts s n none = .ok (n, []) := rfl
  have e2 : NoteService.noteRemoveContacts s n none = (n, []) := rfl
  have e3 : NoteService.noteRemoveOrgs s n1 none = (n1, []) := rfl
  have e4 : NoteService.noteAddTasks s n1 none = .ok (n1, []) := rfl
  have e5 : NoteService.noteRemoveTasks s n1 none = (n1, []) := rfl
  unfold NoteService.tag_note
  simp only [hfind, e1, e2, hok, e3, e4, e5]

/-- When the organization add-block fails, tag_note with only an org
add-list returns the error and commits the unmodified note row. -/
theorem tag_note_add_orgs_only_error (s : Store) (note_id : Nat) (n : Note)
    (hfind : s.findNote note_id = some n) (o : Option (List Nat)) (e : Err)
    (herr : NoteService.noteAddOrgs s n o = .error e) :
    NoteService.tag_note s note_id none none o none none none =
      (s.setNote n, none, some e) := by
  have e1 : NoteService.noteAddContacts s n none = .ok (n, []) := rfl
  have e2 : NoteService.noteRemoveContacts s n none = (n, []) := rfl
  unfold NoteService.tag_note
  simp only [hfind, e1, e2, herr]

/-- Re-running an org-add-only tag_note call leaves the committed store
fixed. -/
theorem tag_note_add_orgs_idem (s : Store) (hWF : s.WF) (note_id : Nat) (n : Note)
    (hfind : s.findNote note_id = some n) (ids : List Nat) :
    (NoteService.tag_note
        ((NoteService.tag_note s note_id none none (some ids) none none none).1)
        note_id none none (some ids) none none none).1 =
      (NoteService.tag_note s note_id none none (some ids) none none none).1 := by
  have hnid : n.id = note_id := find?_key_eq Note.id s.notes note_id n hfind
  have hset : s.setNote n = s := setNote_self s n hWF (by rw [hnid]; exact hfind)
  cases ids with
  | nil =>
    have hok0 : NoteService.noteAddOrgs s n (some []) = .ok (n, []) := rfl
    have hc1 : (NoteService.tag_note s note_id none none (some []) none none none).1
        = s := by
      rw [tag_note_add_orgs_only_ok s note_id n hfind (some []) n [] hok0]
      exact hset
    rw [hc1]
    exact hc1
  | cons a l =>
    by_cases hm : ∀ i ∈ a :: l, ∃ g ∈ s.organizations, g.id = i
    · have hok := noteAddOrgs_ok_of_resolvable s n a l hm
      set n1 : Note := { n with organizations := n.organizations ++
          ((s.organizations.filter (fun g => (a :: l).contains g.id)).filter
            (fun g => !n.organizations.contains g.id)).map Organization.id } with hn1
      have hc1 := tag_note_add_orgs_only_ok s note_id n hfind (some (a :: l)) n1 _ hok
      have hfind1 : (s.setNote n1).findNote note_id = some n1 :=
        findNote_setNote s note_id n n1 (show n1.id = note_id from hnid) hfind
      have hWF1 : (s.setNote n1).WF := setNote_WF s n1 hWF
      have hres1 : ∀ i ∈ a :: l, ∃ g ∈ (s.setNote n1).organizations, g.id = i := hm
      have hok2 := noteAddOrgs_ok_of_resolvable (s.setNote n1) n1 a l hres1
      have hstep : ((s.setNote n1).organizations.filter
          (fun g => (a :: l).contains g.id)).filter
          (fun g => !n1.organizations.contains g.id) = [] := by
        have hsc : (s.setNote n1).organizations = s.organizations := rfl
        have hn1c : n1.organizations = n.organizations ++
            ((s.organizations.filter (fun g => (a :: l).contains g.id)).filter
              (fun g => !n.organizations.contains g.id)).map Organization.id := rfl
        rw [hsc]
        simp only [hn1c]
        exact filter_not_contains_append_nil Organization.id
          (s.organizations.filter (fun g => (a :: l).contains g.id)) n.organizations
      have hok2a : NoteService.noteAddOrgs (s.setNote n1) n1 (some (a :: l)) =
          .ok (n1, []) := by
        rw [hok2, hstep]
        simp only [List.map_nil, List.append_nil]
      have hc2 := tag_note_add_orgs_only_ok (s.setNote n1) note_id n1 hfind1
        (some (a :: l)) n1 [] hok2a
      have hset2 : (s.setNote n1).setNote n1 = s.setNote n1 :=
        setNote_self (s.setNote n1) n1 hWF1
          (by rw [show n1.id = note_id from hnid]; exact hfind1)
      rw [hc1]
      show (NoteService.tag_note (s.setNote n1) note_id none none (some (a :: l))
          none none none).1 = s.setNote n1
      rw [hc2]
      exact hset2
    · push_neg at hm
      obtain ⟨i, hi, hmiss⟩ := hm
      obtain ⟨missing, herr⟩ := noteAddOrgs_error_of_missing s n a l i hi hmiss
      have hc1 : (NoteService.tag_note s note_id none none (some (a :: l))
          none none none).1 = s := by
        rw [tag_note_add_orgs_only_error s note_id n hfind (some (a :: l)) _ herr]
        exact hset
      rw [hc1]
      exact hc1

/-- Unfolding equation for tag_note's task add-block on a truthy list
(note_service.py 283-302). -/
theorem noteAddTasks_cons (s : Store) (n : Note) (a : Nat) (l : List Nat) :
    NoteService.noteAddTasks s n (some (a :: l)) =
      (if (missingIds (a :: l)
            ((s.tasks.filter (fun u => (a :: l).contains u.id)).map Task.id)).isEmpty
       then
        .ok ({ n with tasks := n.tasks ++
                ((s.tasks.filter (fun u => (a :: l).contains u.id)).filter
                  (fun u => !n.tasks.contains u.id)).map Task.id },
             ((s.tasks.filter (fun u => (a :: l).contains u.id)).filter
                  (fun u => !n.tasks.contains u.id)).map Task.title)
       else .error (.tasksNotFound (missingIds (a :: l)
            ((s.tasks.filter (fun u => (a :: l).contains u.id)).map Task.id)))) := rfl

/-- When every id of the task add-list resolves, tag_note's task add-block
succeeds, appending exactly the resolved rows not already associated. -/
theorem noteAddTasks_ok_of_resolvable (s : Store) (n : Note) (a : Nat) (l : List Nat)
    (hres : ∀ i ∈ a :: l, ∃ u ∈ s.tasks, u.id = i) :
    NoteService.noteAddTasks s n (some (a :: l)) =
      .ok ({ n with tasks := n.tasks ++
              ((s.tasks.filter (fun u => (a :: l).contains u.id)).filter
                (fun u => !n.tasks.contains u.id)).map Task.id },
           ((s.tasks.filter (fun u => (a :: l).contains u.id)).filter
                (fun u => !n.tasks.contains u.id)).map Task.title) := by
  rw [noteAddTasks_cons]
  have hnil : missingIds (a :: l)
      ((s.tasks.filter (fun u => (a :: l).contains u.id)).map Task.id) = [] := by
    rw [missingIds_eq_nil]
    intro i hi
    obtain ⟨u, hu, huid⟩ := hres i hi
    refine List.mem_map.mpr ⟨u, List.mem_filter.mpr ⟨hu, ?_⟩, huid⟩
    simp only [huid]
    simpa using hi
  rw [hnil]
  rfl

/-- tag_note's task add-block fails whenever the add-list names an id
matching no task row. -/
theorem noteAddTasks_error_of_missing (s : Store) (n : Note) (a : Nat) (l : List Nat)
    (i : Nat) (hi : i ∈ a :: l) (hmiss : ∀ u ∈ s.tasks, u.id ≠ i) :
    ∃ missing, NoteService.noteAddTasks s n (some (a :: l)) =
      .error (.tasksNotFound missing) := by
  rw [noteAddTasks_cons]
  have hnotfound : i ∉ (s.tasks.filter
      (fun u => (a :: l).contains u.id)).map Task.id := by
    intro hmem
    rw [List.mem_map] at hmem
    obtain ⟨u, huf, huid⟩ := hmem
    exact hmiss u (List.mem_filter.mp huf).1 huid
  have hmm : i ∈ missingIds (a :: l)
      ((s.tasks.filter (fun u => (a :: l).contains u.id)).map Task.id) :=
    (mem_missingIds _ _ _).mpr ⟨hi, hnotfound⟩
  have hne2 : (missingIds (a :: l)
      ((s.tasks.filter (fun u => (a :: l).contains u.id)).map Task.id)).isEmpty
        = false := by
    cases hl : missingIds (a :: l)
        ((s.tasks.filter (fun u => (a :: l).contains u.id)).map Task.id) with
    | nil =>
      rw [hl] at hmm
      simp at hmm
    | cons b m => rfl
  rw [if_neg (by rw [hne2]; exact Bool.false_ne_true)]
  exact ⟨_, rfl⟩

/-- When the task add-block succeeds, tag_note with only a task add-list
commits the block's result and reports its added titles. -/
theorem tag_note_add_tasks_only_ok (s : Store) (note_id : Nat) (n : Note)
    (hfind : s.findNote note_id = some n) (o : Option (List Nat))
    (n1 : Note) (names : List String)
    (hok : NoteService.noteAddTasks s n o = .ok (n1, names)) :
    NoteService.tag_note s note_id none none none none o none =
      (s.setNote n1, some ⟨[], [], [], [], names, []⟩, none) := by
  have e1 : NoteService.noteAddContacts s n none = .ok (n, []) := rfl
  have e2 : NoteService.noteRemoveContacts s n none = (n, []) := rfl
  have e3 : NoteService.noteAddOrgs s n none = .ok (n, []) := rfl
  have e4 : NoteService.noteRemoveOrgs s n none = (n, []) := rfl
  have e5 : NoteService.noteRemoveTasks s n1 none = (n1, []) := rfl
  unfold NoteService.tag_note
  simp only [hfind, e1, e2, e3, e4, hok, e5]

/-- When the task add-block fails, tag_note with only a task add-list
returns the error and commits the unmodified note row. -/
theorem tag_note_add_tasks_only_error (s : Store) (note_id : Nat) (n : Note)
    (hfind : s.findNote note_id = some n) (o : Option (List Nat)) (e : Err)
    (herr : NoteService.noteAddTasks s n o = .error e) :
    NoteService.tag_note s note_id none none none none o none =
      (s.setNote n, none, some e) := by
  have e1 : NoteService.noteAddContacts s n none = .ok (n, []) := rfl
  have e2 : NoteService.noteRemoveContacts s n none = (n, []) := rfl
  have e3 : NoteService.noteAddOrgs s n none = .ok (n, []) := rfl
  have e4 : NoteService.noteRemoveOrgs s n none = (n, []) := rfl
  unfold NoteService.tag_note
  simp only [hfind, e1, e2, e3, e4, herr]

/-- Re-running a task-add-only tag_note call leaves the committed store
fixed. -/
theorem tag_note_add_tasks_idem (s : Store) (hWF : s.WF) (note_id : Nat) (n : Note)
    (hfind : s.findNote note_id = some n) (ids : List Nat) :
    (NoteService.tag_note
        ((NoteService.tag_note s note_id none none none none (some ids) none).1)
        note_id none none none none (some ids) none).1 =
      (NoteService.tag_note s note_id none none none none (some ids) none).1 := by
  have hnid : n.id = note_id := find?_key_eq Note.id s.notes note_id n hfind
  have hset : s.setNote n = s := setNote_self s n hWF (by rw [hnid]; exact hfind)
  cases ids with
  | nil =>
    have hok0 : NoteService.noteAddTasks s n (some []) = .ok (n, []) := rfl
    have hc1 : (NoteService.tag_note s note_id none none none none
        (some []) none).1 = s := by
      rw [tag_note_add_tasks_only_ok s note_id n hfind (some []) n [] hok0]
      exact hset
    rw [hc1]
    exact hc1
  | cons a l =>
    by_cases hm : ∀ i ∈ a :: l, ∃ u ∈ s.tasks, u.id = i
    · have hok := noteAddTasks_ok_of_resolvable s n a l hm
      set n1 : Note := { n with tasks := n.tasks ++
          ((s.tasks.filter (fun u => (a :: l).contains u.id)).filter
            (fun u => !n.tasks.contains u.id)).map Task.id } with hn1
      have hc1 := tag_note_add_tasks_only_ok s note_id n hfind (some (a :: l)) n1 _ hok
      have hfind1 : (s.setNote n1).findNote note_id = some n1 :=
        findNote_setNote s note_id n n1 (show n1.id = note_id from hnid) hfind
      have hWF1 : (s.setNote n1).WF := setNote_WF s n1 hWF
      have hres1 : ∀ i ∈ a :: l, ∃ u ∈ (s.setNote n1).tasks, u.id = i := hm
      have hok2 := noteAddTasks_ok_of_resolvable (s.setNote n1) n1 a l hres1
      have hstep : ((s.setNote n1).tasks.filter
          (fun u => (a :: l).contains u.id)).filter
          (fun u => !n1.tasks.contains u.id) = [] := by
        have hsc : (s.setNote n1).tasks = s.tasks := rfl
        have hn1c : n1.tasks = n.tasks ++
            ((s.tasks.filter (fun u => (a :: l).contains u.id)).filter
              (fun u => !n.tasks.contains u.id)).map Task.id := rfl
        rw [hsc]
        simp only [hn1c]
        exact filter_not_contains_append_nil Task.id
          (s.tasks.filter (fun u => (a :: l).contains u.id)) n.tasks
      have hok2a : NoteService.noteAddTasks (s.setNote n1) n1 (some (a :: l)) =
          .ok (n1, []) := by
        rw [hok2, hstep]
        simp only [List.map_nil, List.append_nil]
      have hc2 := tag_note_add_tasks_only_ok (s.setNote n1) note_id n1 hfind1
        (some (a :: l)) n1 [] hok2a
      have hset2 : (s.setNote n1).setNote n1 = s.setNote n1 :=
        setNote_self (s.setNote n1) n1 hWF1
          (by rw [show n1.id = note_id from hnid]; exact hfind1)
      rw [hc1]
      show (NoteService.tag_note (s.setNote n1) note_id none none none none
          (some (a :: l)) none).1 = s.setNote n1
      rw [hc2]
      exact hset2
    · push_neg at hm
      obtain ⟨i, hi, hmiss⟩ := hm
      obtain ⟨missing, herr⟩ := noteAddTasks_error_of_missing s n a l i hi hmiss
      have hc1 : (NoteService.tag_note s note_id none none none none
          (some (a :: l)) none).1 = s := by
        rw [tag_note_add_tasks_only_error s note_id n hfind (some (a :: l)) _ herr]
        exact hset
      rw [hc1]
      exact hc1

/-- Unfolding equation for the tag_task organization loop on an empty row
list. -/
theorem taskAddOrgsLoop_nil (cur : List Nat) (names : List String) :
    TaskService.taskAddOrgsLoop cur names [] = (cur, names) := rfl

/-- Unfolding equation for the tag_task organization loop on a row list
(task_service.py 224-231). -/
theorem taskAddOrgsLoop_cons (cur : List Nat) (names : List String)
    (g : Organization) (rest : List Organization) :
    TaskService.taskAddOrgsLoop cur names (g :: rest) =
      if cur.contains g.id then TaskService.taskAddOrgsLoop cur names rest
      else TaskService.taskAddOrgsLoop (cur ++ [g.id]) (names ++ [g.name]) rest := rfl

/-- The tag_task organization loop only ever appends: the incoming
association ids survive. -/
theorem taskAddOrgsLoop_sub (objs : List Organization) (cur : List Nat)
    (names : List String) :
    ∀ i ∈ cur, i ∈ (TaskService.taskAddOrgsLoop cur names objs).1 := by
  induction objs generalizing cur names with
  | nil =>
    intro i hi
    rw [taskAddOrgsLoop_nil]
    exact hi
  | cons g rest ih =>
    intro i hi
    rw [taskAddOrgsLoop_cons]
    by_cases hg : cur.contains g.id = true
    · rw [if_pos hg]
      exact ih cur names i hi
    · rw [if_neg hg]
      exact ih (cur ++ [g.id]) (names ++ [g.name]) i (List.mem_append_left _ hi)

/-- After the tag_task organization loop, every processed row's id is
associated. -/
theorem taskAddOrgsLoop_mem (objs : List Organization) (cur : List Nat)
    (names : List String) :
    ∀ g ∈ objs, g.id ∈ (TaskService.taskAddOrgsLoop cur names objs).1 := by
  induction objs generalizing cur names with
  | nil =>
    intro g hg
    simp at hg
  | cons d rest ih =>
    intro g hg
    rw [taskAddOrgsLoop_cons]
    rcases List.mem_cons.mp hg with rfl | hgr
    · by_cases hd : cur.contains g.id = true
      · rw [if_pos hd]
        exact taskAddOrgsLoop_sub rest cur names g.id (by simpa using hd)
      · rw [if_neg hd]
        exact taskAddOrgsLoop_sub rest _ _ g.id
          (List.mem_append_right _ (List.mem_singleton.mpr rfl))
    · by_cases hd : cur.contains d.id = true
      · rw [if_pos hd]
        exact ih cur names g hgr
      · rw [if_neg hd]
        exact ih _ _ g hgr

/-- The tag_task organization loop is a no-op once every processed row is
already associated. -/
theorem taskAddOrgsLoop_noop (objs : List Organization) (cur : List Nat)
    (names : List String) (h : ∀ g ∈ objs, g.id ∈ cur) :
    TaskService.taskAddOrgsLoop cur names objs = (cur, names) := by
  induction objs with
  | nil => rfl
  | cons d rest ih =>
    have hd : cur.contains d.id = true := by
      simpa using h d (List.mem_cons_self d rest)
    rw [taskAddOrgsLoop_cons, if_pos hd]
    exact ih (fun g hg => h g (List.mem_cons_of_mem d hg))

/-- tag_task with only an organization add-list reduces to the organization
loop followed by a commit. -/
theorem tag_task_add_orgs_only (s : Store) (task_id : Nat) (t : Task)
    (htfind : s.findTask task_id = some t) (a : Nat) (l : List Nat) :
    TaskService.tag_task s task_id none (some (a :: l)) none none =
      (s.setTask { t with
          organizations := (TaskService.taskAddOrgsLoop t.organizations []
            (s.organizations.filter (fun g => (a :: l).contains g.id))).1 },
       some ⟨[], [], (TaskService.taskAddOrgsLoop t.organizations []
            (s.organizations.filter (fun g => (a :: l).contains g.id))).2, []⟩,
       none) := by
  unfold TaskService.tag_task
  rw [htfind]
  rfl

/-- Re-running an org-add-only tag_task call leaves the committed store
fixed. -/
theorem tag_task_add_orgs_idem (s : Store) (hWF : s.WF) (task_id : Nat) (t : Task)
    (htfind : s.findTask task_id = some t) (tids : List Nat) :
    (TaskService.tag_task
        ((TaskService.tag_task s task_id none (some tids) none none).1)
        task_id none (some tids) none none).1 =
      (TaskService.tag_task s task_id none (some tids) none none).1 := by
  have htid : t.id = task_id := find?_key_eq Task.id s.tasks task_id t htfind
  have hsetT : s.setTask t = s := setTask_self s t hWF (by rw [htid]; exact htfind)
  cases tids with
  | nil =>
    have hc1 : (TaskService.tag_task s task_id none (some []) none none).1 = s := by
      have hc : TaskService.tag_task s task_id none (some []) none none =
          (s.setTask t, some TaskChanges.empty, none) := by
        unfold TaskService.tag_task
        rw [htfind]
        rfl
      rw [hc]
      exact hsetT
    rw [hc1]
    exact hc1
  | cons a l =>
    have hc1 := tag_task_add_orgs_only s task_id t htfind a l
    set t1 : Task := { t with organizations := (TaskService.taskAddOrgsLoop
        t.organizations []
        (s.organizations.filter (fun g => (a :: l).contains g.id))).1 } with ht1
    have hfind1 : (s.setTask t1).findTask task_id = some t1 :=
      findTask_setTask s task_id t t1 (show t1.id = task_id from htid) htfind
    have hWF1 : (s.setTask t1).WF := setTask_WF s t1 hWF
    have hc2 := tag_task_add_orgs_only (s.setTask t1) task_id t1 hfind1 a l
    have hnoop : TaskService.taskAddOrgsLoop t1.organizations []
        ((s.setTask t1).organizations.filter (fun g => (a :: l).contains g.id)) =
          (t1.organizations, []) := by
      apply taskAddOrgsLoop_noop
      intro g hg
      exact taskAddOrgsLoop_mem
        (s.organizations.filter (fun g => (a :: l).contains g.id))
        t.organizations [] g hg
    have hset2 : (s.setTask t1).setTask t1 = s.setTask t1 :=
      setTask_self (s.setTask t1) t1 hWF1
        (by rw [show t1.id = task_id from htid]; exact hfind1)
    rw [hc1]
    show (TaskService.tag_task (s.setTask t1) task_id none (some (a :: l))
        none none).1 = s.setTask t1
    rw [hc2, hnoop]
    exact hset2

/-- Adding already-associated contacts to a note is a no-op with an empty
diff. -/
theorem tag_note_addC_noop (s : Store) (hWF : s.WF) (note_id : Nat) (n : Note)
    (hfind : s.findNote note_id = some n) (ids : List Nat)
    (hsub : ∀ i ∈ ids, i ∈ n.contacts)
    (hres : ∀ i ∈ ids, ∃ c ∈ s.contacts, c.id = i) :
    NoteService.tag_note s note_id (some ids) none none none none none =
      (s, some Changes.empty, none) := by
  have hnid : n.id = note_id := find?_key_eq Note.id s.notes note_id n hfind
  have hset : s.setNote n = s := setNote_self s n hWF (by rw [hnid]; exact hfind)
  cases ids with
  | nil =>
    rw [tag_note_add_only_ok s note_id n hfind (some []) n [] rfl]
    show (s.setNote n, some Changes.empty, none) = (s, some Changes.empty, none)
    rw [hset]
  | cons a l =>
    have hok := noteAddContacts_ok_of_resolvable s n a l hres
    have hnil : (s.contacts.filter (fun c => (a :: l).contains c.id)).filter
        (fun c => !n.contacts.contains c.id) = [] := by
      rw [List.filter_eq_nil_iff]
      intro c hc hb
      rw [List.mem_filter] at hc
      have h1 : c.id ∈ n.contacts := hsub c.id (by simpa using hc.2)
      rw [Bool.not_eq_true'] at hb
      simp [h1] at hb
    rw [hnil] at hok
    have hok1 : NoteService.noteAddContacts s n (some (a :: l)) = .ok (n, []) := by
      rw [hok]
      simp only [List.map_nil, List.append_nil]
    rw [tag_note_add_only_ok s note_id n hfind (some (a :: l)) n [] hok1]
    show (s.setNote n, some Changes.empty, none) = (s, some Changes.empty, none)
    rw [hset]

/-- Adding already-associated organizations to a note is a no-op with an
empty diff. -/
theorem tag_note_addO_noop (s : Store) (hWF : s.WF) (note_id : Nat) (n : Note)
    (hfind : s.findNote note_id = some n) (ids : List Nat)
    (hsub : ∀ i ∈ ids, i ∈ n.organizations)
    (hres : ∀ i ∈ ids, ∃ g ∈ s.organizations, g.id = i) :
    NoteService.tag_note s note_id none none (some ids) none none none =
      (s, some Changes.empty, none) := by
  have hnid : n.id = note_id := find?_key_eq Note.id s.notes note_id n hfind
  have hset : s.setNote n = s := setNote_self s n hWF (by rw [hnid]; exact hfind)
  cases ids with
  | nil =>
    rw [tag_note_add_orgs_only_ok s note_id n hfind (some []) n [] rfl]
    show (s.setNote n, some Changes.empty, none) = (s, some Changes.empty, none)
    rw [hset]
  | cons a l =>
    have hok := noteAddOrgs_ok_of_resolvable s n a l hres
    have hnil : (s.organizations.filter (fun g => (a :: l).contains g.id)).filter
        (fun g => !n.organizations.contains g.id) = [] := by
      rw [List.filter_eq_nil_iff]
      intro g hg hb
      rw [List.mem_filter] at hg
      have h1 : g.id ∈ n.organizations := hsub g.id (by simpa using hg.2)
      rw [Bool.not_eq_true'] at hb
      simp [h1] at hb
    rw [hnil] at hok
    have hok1 : NoteService.noteAddOrgs s n (some (a :: l)) = .ok (n, []) := by
      rw [hok]
      simp only [List.map_nil, List.append_nil]
    rw [tag_note_add_orgs_only_ok s note_id n hfind (some (a :: l)) n [] hok1]
    show (s.setNote n, some Changes.empty, none) = (s, some Changes.empty, none)
    rw [hset]

/-- Adding already-associated tasks to a note is a no-op with an empty
diff. -/
theorem tag_note_addT_noop (s : Store) (hWF : s.WF) (note_id : Nat) (n : Note)
    (hfind : s.findNote note_id = some n) (ids : List Nat)
    (hsub : ∀ i ∈ ids, i ∈ n.tasks)
    (hres : ∀ i ∈ ids, ∃ u ∈ s.tasks, u.id = i) :
    NoteService.tag_note s note_id none none none none (some ids) none =
      (s, some Changes.empty, none) := by
  have hnid : n.id = note_id := find?_key_eq Note.id s.notes note_id n hfind
  have hset : s.setNote n = s := setNote_self s n hWF (by rw [hnid]; exact hfind)
  cases ids with
  | nil =>
    rw [tag_note_add_tasks_only_ok s note_id n hfind (some []) n [] rfl]
    show (s.setNote n, some Changes.empty, none) = (s, some Changes.empty, none)
    rw [hset]
  | cons a l =>
    have hok := noteAddTasks_ok_of_resolvable s n a l hres
    have hnil : (s.tasks.filter (fun u => (a :: l).contains u.id)).filter
        (fun u => !n.tasks.contains u.id) = [] := by
      rw [List.filter_eq_nil_iff]
      intro u hu hb
      rw [List.mem_filter] at hu
      have h1 : u.id ∈ n.tasks := hsub u.id (by simpa using hu.2)
      rw [Bool.not_eq_true'] at hb
      simp [h1] at hb
    rw [hnil] at hok
    have hok1 : NoteService.noteAddTasks s n (some (a :: l)) = .ok (n, []) := by
      rw [hok]
      simp only [List.map_nil, List.append_nil]
    rw [tag_note_add_tasks_only_ok s note_id n hfind (some (a :: l)) n [] hok1]
    show (s.setNote n, some Changes.empty, none) = (s, some Changes.empty, none)
    rw [hset]

/-- Adding already-associated contacts to a task is a no-op with an empty
diff. -/
theorem tag_task_addC_noop (s : Store) (hWF : s.WF) (task_id : Nat) (t : Task)
    (htfind : s.findTask task_id = some t) (ids : List Nat)
    (hsub : ∀ i ∈ ids, i ∈ t.contacts) :
    TaskService.tag_task s task_id (some ids) none none none =
      (s, some TaskChanges.empty, none) := by
  have htid : t.id = task_id := find?_key_eq Task.id s.tasks task_id t htfind
  have hsetT : s.setTask t = s := setTask_self s t hWF (by rw [htid]; exact htfind)
  cases ids with
  | nil =>
    have hc : TaskService.tag_task s task_id (some []) none none none =
        (s.setTask t, some TaskChanges.empty, none) := by
      unfold TaskService.tag_task
      rw [htfind]
      rfl
    rw [hc, hsetT]
  | cons a l =>
    have hnoop : TaskService.taskAddContactsLoop t.contacts []
        (s.contacts.filter (fun c => (a :: l).contains c.id)) = (t.contacts, []) := by
      apply taskAddContactsLoop_noop
      intro c hc
      rw [List.mem_filter] at hc
      exact hsub c.id (by simpa using hc.2)
    rw [tag_task_add_only s task_id t htfind a l, hnoop]
    show (s.setTask t, some TaskChanges.empty, none) = (s, some TaskChanges.empty, none)
    rw [hsetT]

/-- Adding already-associated organizations to a task is a no-op with an
empty diff. -/
theorem tag_task_addO_noop (s : Store) (hWF : s.WF) (task_id : Nat) (t : Task)
    (htfind : s.findTask task_id = some t) (ids : List Nat)
    (hsub : ∀ i ∈ ids, i ∈ t.organizations) :
    TaskService.tag_task s task_id none (some ids) none none =
      (s, some TaskChanges.empty, none) := by
  have htid : t.id = task_id := find?_key_eq Task.id s.tasks task_id t htfind
  have hsetT : s.setTask t = s := setTask_self s t hWF (by rw [htid]; exact htfind)
  cases ids with
  | nil =>
    have hc : TaskService.tag_task s task_id none (some []) none none =
        (s.setTask t, some TaskChanges.empty, none) := by
      unfold TaskService.tag_task
      rw [htfind]
      rfl
    rw [hc, hsetT]
  | cons a l =>
    have hnoop : TaskService.taskAddOrgsLoop t.organizations []
        (s.organizations.filter (fun g => (a :: l).contains g.id)) =
          (t.organizations, []) := by
      apply taskAddOrgsLoop_noop
      intro g hg
      rw [List.mem_filter] at hg
      exact hsub g.id (by simpa using hg.2)
    rw [tag_task_add_orgs_only s task_id t htfind a l, hnoop]
    show (s.setTask t, some TaskChanges.empty, none) = (s, some TaskChanges.empty, none)
    rw [hsetT]

/-- C4: tag addition is idempotent for every entity and association kind.
For each of the five add paths (note-contact, note-organization, note-task,
task-contact, task-organization), adding ids already in the association set
changes nothing and yields an all-empty diff, and re-running any add-only
call of that kind on its own committed result reproduces that result. -/
theorem C4_tag_add_idempotent
    (s : Store) (hWF : s.WF)
    (note_id : Nat) (n : Note) (hfind : s.findNote note_id = some n)
    (cids oids tids : List Nat)
    (hcsub : ∀ i ∈ cids, i ∈ n.contacts)
    (hcres : ∀ i ∈ cids, ∃ c ∈ s.contacts, c.id = i)
    (hosub : ∀ i ∈ oids, i ∈ n.organizations)
    (hores : ∀ i ∈ oids, ∃ g ∈ s.organizations, g.id = i)
    (htsub : ∀ i ∈ tids, i ∈ n.tasks)
    (htres : ∀ i ∈ tids, ∃ u ∈ s.tasks, u.id = i)
    (task_id : Nat) (t : Task) (htfind : s.findTask task_id = some t)
    (tcids toids : List Nat)
    (htcsub : ∀ i ∈ tcids, i ∈ t.contacts)
    (htosub : ∀ i ∈ toids, i ∈ t.organizations)
    (cids2 oids2 tids2 tcids2 toids2 : List Nat) :
    NoteService.tag_note s note_id (some cids) none none none none none =
        (s, some Changes.empty, none) ∧
    NoteService.tag_note s note_id none none (some oids) none none none =
        (s, some Changes.empty, none) ∧
    NoteService.tag_note s note_id none none none none (some tids) none =
        (s, some Changes.empty, none) ∧
    TaskService.tag_task s task_id (some tcids) none none none =
        (s, some TaskChanges.empty, none) ∧
    TaskService.tag_task s task_id none (some toids) none none =
        (s, some TaskChanges.empty, none) ∧
    (NoteService.tag_note
        ((NoteService.tag_note s note_id (some cids2) none none none none none).1)
        note_id (some cids2) none none none none none).1 =
      (NoteService.tag_note s note_id (some cids2) none none none none none).1 ∧
    (NoteService.tag_note
        ((NoteService.tag_note s note_id none none (some oids2) none none none).1)
        note_id none none (some oids2) none none none).1 =
      (NoteService.tag_note s note_id none none (some oids2) none none none).1 ∧
    (NoteService.tag_note
        ((NoteService.tag_note s note_id none none none none (some tids2) none).1)
        note_id none none none none (some tids2) none).1 =
      (NoteService.tag_note s note_id none none none none (some tids2) none).1 ∧
    (TaskService.tag_task
        ((TaskService.tag_task s task_id (some tcids2) none none none).1)
        task_id (some tcids2) none none none).1 =
      (TaskService.tag_task s task_id (some tcids2) none none none).1 ∧
    (TaskService.tag_task
        ((TaskService.tag_task s task_id none (some toids2) none none).1)
        task_id none (some toids2) none none).1 =
      (TaskService.tag_task s task_id none (some toids2) none none).1 :=
  ⟨tag_note_addC_noop s hWF note_id n hfind cids hcsub hcres,
   tag_note_addO_noop s hWF note_id n hfind oids hosub hores,
   tag_note_addT_noop s hWF note_id n hfind tids htsub htres,
   tag_task_addC_noop s hWF task_id t htfind tcids htcsub,
   tag_task_addO_noop s hWF task_id t htfind toids htosub,
   tag_note_add_idem s hWF note_id n hfind cids2,
   tag_note_add_orgs_idem s hWF note_id n hfind oids2,
   tag_note_add_tasks_idem s hWF note_id n hfind tids2,
   tag_task_add_idem s hWF task_id t htfind tcids2,
   tag_task_add_orgs_idem s hWF task_id t htfind toids2⟩

/-- Concrete instance of C4 on `store3`, where contact 1, organization 2
and task 5 are already tagged on note 10 and contact 1 and organization 2 on
task 5: re-adding each is a no-op with an empty diff, and every add-only
call is idempotent. -/
theorem C4_tag_add_idempotent_witness :
    NoteService.tag_note store3 10 (some [1]) none none none none none =
        (store3, some Changes.empty, none) ∧
    NoteService.tag_note store3 10 none none (some [2]) none none none =
        (store3, some Changes.empty, none) ∧
    NoteService.tag_note store3 10 none none none none (some [5]) none =
        (store3, some Changes.empty, none) ∧
    TaskService.tag_task store3 5 (some [1]) none none none =
        (store3, some TaskChanges.empty, none) ∧
    TaskService.tag_task store3 5 none (some [2]) none none =
        (store3, some TaskChanges.empty, none) ∧
    (NoteService.tag_note
        ((NoteService.tag_note store3 10 (some [1]) none none none none none).1)
        10 (some [1]) none none none none none).1 =
      (NoteService.tag_note store3 10 (some [1]) none none none none none).1 ∧
    (NoteService.tag_note
        ((NoteService.tag_note store3 10 none none (some [2]) none none none).1)
        10 none none (some [2]) none none none).1 =
      (NoteService.tag_note store3 10 none none (some [2]) none none none).1 ∧
    (NoteService.tag_note
        ((NoteService.tag_note store3 10 none none none none (some [5]) none).1)
        10 none none none none (some [5]) none).1 =
      (NoteService.tag_note store3 10 none none none none (some [5]) none).1 ∧
    (TaskService.tag_task
        ((TaskService.tag_task store3 5 (some [1]) none none none).1)
        5 (some [1]) none none none).1 =
      (TaskService.tag_task store3 5 (some [1]) none none none).1 ∧
    (TaskService.tag_task
        ((TaskService.tag_task store3 5 none (some [2]) none none).1)
        5 none (some [2]) none none).1 =
      (TaskService.tag_task store3 5 none (some [2]) none none).1 :=
  C4_tag_add_idempotent store3 (by decide) 10 ⟨10, "minutes", "body", 0, [1], [2], [5]⟩
    (by decide) [1] [2] [5] (by decide) (by decide) (by decide) (by decide)
    (by decide) (by decide) 5 ⟨5, "Ship", none, 100, 3, false, 0, [1], [2]⟩
    (by decide) [1] [2] (by decide) (by decide) [1] [2] [5] [1] [2]

/-! ## C5 -/

/-- Dispatch on a boolean remote flag serves the matching backend. -/
theorem backend_if (b : Bool) {α : Type} (r : HttpRequest) (x : α) :
    (if b = true then Dispatched.onRemote r else Dispatched.onLocal x).backend =
      (if b = true then Backend.remotePeer else Backend.localStore) := by
  cases b <;> rfl

/-- C5: the claim is false on the code.  With a peer address configured
(remote mode), creating a contact still executes against the local store:
ContactService has no remote branch at all. -/
theorem C5_counterexample :
    is_remote_mode (some "http://peer:8000") = true ∧
    (ContactService.add_contact_dispatch (some "http://peer:8000") store1
        "Grace" "Hopper").backend = Backend.localStore ∧
    (TaskService.tag_task_dispatch (some "http://peer:8000") store1 5
        (some [1]) none none none).backend = Backend.localStore :=
  ⟨rfl, rfl, rfl⟩

/-- C5 (amended): backend selection covers only the note service.
`is_remote_mode` is a pure function of the configured peer address (absent ⇒
local, present ⇒ remote) and all four NoteService operations follow it, but
every ContactService, OrganizationService and TaskService operation executes
against the local store regardless of the configuration. -/
theorem C5_dispatch_backends (cfg : Option String) (s : Store)
    (u title content fn ln nm q sort_key : String)
    (created due now days imp : Int) (descr : Option String)
    (lim nid tid cid nlim : Nat) (show_completed : Bool)
    (a b c d e f : Option (List Nat)) (names : List String) (oc oo : Option Nat) :
    is_remote_mode none = false ∧
    is_remote_mode (some u) = true ∧
    (NoteService.add_note_dispatch cfg s title content created a b c).backend =
      (if is_remote_mode cfg then Backend.remotePeer else Backend.localStore) ∧
    (NoteService.list_notes_dispatch cfg s lim oc oo).backend =
      (if is_remote_mode cfg then Backend.remotePeer else Backend.localStore) ∧
    (NoteService.get_note_dispatch cfg s nid).backend =
      (if is_remote_mode cfg then Backend.remotePeer else Backend.localStore) ∧
    (NoteService.tag_note_dispatch cfg s nid a b c d e f).backend =
      (if is_remote_mode cfg then Backend.remotePeer else Backend.localStore) ∧
    (ContactService.add_contact_dispatch cfg s fn ln).backend = Backend.localStore ∧
    (ContactService.list_contacts_dispatch cfg s).backend = Backend.localStore ∧
    (ContactService.get_top_contacts_dispatch cfg s lim).backend = Backend.localStore ∧
    (ContactService.bulk_add_contacts_dispatch cfg s names).backend = Backend.localStore ∧
    (ContactService.search_contacts_dispatch cfg s q).backend = Backend.localStore ∧
    (ContactService.get_contact_with_notes_dispatch cfg s cid nlim).backend =
      Backend.localStore ∧
    (OrganizationService.add_organization_dispatch cfg s nm).backend =
      Backend.localStore ∧
    (OrganizationService.list_organizations_dispatch cfg s).backend =
      Backend.localStore ∧
    (OrganizationService.get_top_organizations_dispatch cfg s lim).backend =
      Backend.localStore ∧
    (TaskService.add_task_dispatch cfg s title due imp descr a b created).backend =
      Backend.localStore ∧
    (TaskService.list_tasks_dispatch cfg s lim show_completed oc oo).backend =
      Backend.localStore ∧
    (TaskService.get_urgent_tasks_dispatch cfg s now days sort_key).backend =
      Backend.localStore ∧
    (TaskService.get_task_dispatch cfg s tid).backend = Backend.localStore ∧
    (TaskService.complete_task_dispatch cfg s tid).backend = Backend.localStore ∧
    (TaskService.uncomplete_task_dispatch cfg s tid).backend = Backend.localStore ∧
    (TaskService.tag_task_dispatch cfg s tid a b c d).backend = Backend.localStore :=
  ⟨rfl, rfl, backend_if (is_remote_mode cfg) _ _, backend_if (is_remote_mode cfg) _ _,
   backend_if (is_remote_mode cfg) _ _, backend_if (is_remote_mode cfg) _ _,
   rfl, rfl, rfl, rfl, rfl, rfl, rfl, rfl, rfl, rfl, rfl, rfl, rfl, rfl, rfl, rfl⟩

/-! ## C6 -/

/-- C6: the claim is false on the code.  Listing notes filtered by contact
id 7, which matches no stored contact, returns a not-found error, not an
empty sequence. -/
theorem C6_counterexample :
    NoteService.list_notes store1 20 (some 7) none =
      (none, some (Err.contactNotFound 7)) := by
  decide

/-- C6 (amended): list-style note queries are total except for the relation
filters: an unfiltered listing always returns a sequence, a filter by an id
that resolves returns that entity's notes truncated, but a filter by a
nonexistent contact or organization id returns a not-found error rather than
an empty sequence. -/
theorem C6_list_notes_totality (s : Store) (lim : Nat) (cid oid : Nat)
    (hc : cid ≠ 0) (ho : oid ≠ 0) :
    (NoteService.list_notes s lim none none).2 = none ∧
    (∀ c, s.findContact cid = some c →
      NoteService.list_notes s lim (some cid) none =
        (some ((s.notes.filter (fun n => n.contacts.contains c.id)).take lim), none)) ∧
    (s.findContact cid = none →
      NoteService.list_notes s lim (some cid) none =
        (none, some (Err.contactNotFound cid))) ∧
    (∀ g, s.findOrg oid = some g →
      NoteService.list_notes s lim none (some oid) =
        (some ((s.notes.filter (fun n => n.organizations.contains g.id)).take lim), none)) ∧
    (s.findOrg oid = none →
      NoteService.list_notes s lim none (some oid) =
        (none, some (Err.orgNotFound oid))) := by
  have htc : truthyNat (some cid) = true := by
    simp [truthyNat, hc]
  have hto : truthyNat (some oid) = true := by
    simp [truthyNat, ho]
  refine ⟨rfl, ?_, ?_, ?_, ?_⟩
  · intro c hfound
    unfold NoteService.list_notes
    simp only [htc, if_true, Option.getD, hfound]
  · intro hnone
    unfold NoteService.list_notes
    simp only [htc, if_true, Option.getD, hnone]
  · intro g hfound
    unfold NoteService.list_notes
    rw [if_neg (by decide), if_pos hto]
    simp only [Option.getD, hfound]
  · intro hnone
    unfold NoteService.list_notes
    rw [if_neg (by decide), if_pos hto]
    simp only [Option.getD, hnone]

/-- Concrete instance of C6's amended theorem on `store1` with the
nonexistent contact 7 and organization 8. -/
theorem C6_list_notes_totality_witness :
    (NoteService.list_notes store1 20 none none).2 = none ∧
    (∀ c, store1.findContact 7 = some c →
      NoteService.list_notes store1 20 (some 7) none =
        (some ((store1.notes.filter (fun n => n.contacts.contains c.id)).take 20), none)) ∧
    (store1.findContact 7 = none →
      NoteService.list_notes store1 20 (some 7) none =
        (none, some (Err.contactNotFound 7))) ∧
    (∀ g, store1.findOrg 8 = some g →
      NoteService.list_notes store1 20 none (some 8) =
        (some ((store1.notes.filter (fun n => n.organizations.contains g.id)).take 20),
          none)) ∧
    (store1.findOrg 8 = none →
      NoteService.list_notes store1 20 none (some 8) =
        (none, some (Err.orgNotFound 8))) :=
  C6_list_notes_totality store1 20 7 8 (by decide) (by decide)

/-! ## C7 -/

/-- Processing any load sequence preserves the parity invariant: every
registered Pydantic name has a same-named SQLAlchemy registration. -/
theorem loadModels_parity (decls : List Models.ModelDecl) (r0 r : Models.Registry)
    (h0 : ∀ nm ∈ r0.pydantic_models, nm ∈ r0.sqlalchemy_models)
    (hload : Models.loadModels r0 decls = .ok r) :
    ∀ nm ∈ r.pydantic_models, nm ∈ r.sqlalchemy_models := by
  induction decls generalizing r0 with
  | nil =>
    unfold Models.loadModels at hload
    injection hload with h
    subst h
    exact h0
  | cons d rest ih =>
    cases d with
    | sqlalchemy dn da =>
      unfold Models.loadModels at hload
      refine ih (Models.defineSQLAlchemyModel r0 dn da) ?_ hload
      intro nm hnm
      unfold Models.defineSQLAlchemyModel
      unfold Models.defineSQLAlchemyModel at hnm
      by_cases hskip : (dn == "Base" || da) = true
      · rw [if_pos hskip] at hnm ⊢
        exact h0 nm hnm
      · rw [if_neg hskip] at hnm ⊢
        exact List.mem_append_left _ (h0 nm hnm)
    | pydantic dn da =>
      unfold Models.loadModels at hload
      unfold Models.definePydanticModel at hload
      by_cases hskip : (dn == "BaseModel" || da) = true
      · rw [if_pos hskip] at hload
        exact ih r0 h0 hload
      · rw [if_neg hskip] at hload
        by_cases hreg : r0.sqlalchemy_models.contains dn = true
        · rw [if_pos hreg] at hload
          refine ih _ ?_ hload
          intro nm hnm
          rw [List.mem_append] at hnm
          rcases hnm with hnm | hnm
          · exact h0 nm hnm
          · rw [List.mem_singleton] at hnm
            subst hnm
            simpa using hreg
        · rw [if_neg hreg] at hload
          cases hload

/-- C7: schema parity is a load-time invariant.  A load sequence that
completes leaves every wire (Pydantic) model name covered by a same-named
persisted (SQLAlchemy) model; defining a non-abstract Pydantic model whose
name is not yet registered halts the remaining initialization with an error
naming exactly that type; and this repository's own model declarations load
successfully. -/
theorem C7_schema_parity (decls : List Models.ModelDecl) (r : Models.Registry)
    (hload : Models.loadModels Models.Registry.empty decls = .ok r) :
    (∀ nm ∈ r.pydantic_models, nm ∈ r.sqlalchemy_models) ∧
    (∀ (r0 : Models.Registry) (nm : String) (rest : List Models.ModelDecl),
      nm ≠ "BaseModel" → nm ∉ r0.sqlalchemy_models →
      Models.loadModels r0 (.pydantic nm false :: rest) = .error nm) ∧
    Models.loadModels Models.Registry.empty Models.repoModelDecls =
      .ok ⟨["Contact", "Organization", "Note", "Task"],
           ["Contact", "Organization", "Note", "Task"]⟩ := by
  refine ⟨loadModels_parity decls Models.Registry.empty r (by simp [Models.Registry.empty])
    hload, ?_, by rfl⟩
  intro r0 nm rest hnb hnmem
  unfold Models.loadModels
  unfold Models.definePydanticModel
  have hskip : (nm == "BaseModel" || false) = false := by
    simp [hnb]
  rw [hskip]
  have hreg : r0.sqlalchemy_models.contains nm = false := by
    rw [← Bool.not_eq_true]
    intro hcon
    exact hnmem (by simpa using hcon)
  rw [hreg]
  rfl

/-- Concrete instance of C7 on this repository's declaration sequence. -/
theorem C7_schema_parity_witness :
    (∀ nm ∈ (⟨["Contact", "Organization", "Note", "Task"],
        ["Contact", "Organization", "Note", "Task"]⟩ : Models.Registry).pydantic_models,
      nm ∈ (⟨["Contact", "Organization", "Note", "Task"],
        ["Contact", "Organization", "Note", "Task"]⟩ : Models.Registry).sqlalchemy_models) ∧
    (∀ (r0 : Models.Registry) (nm : String) (rest : List Models.ModelDecl),
      nm ≠ "BaseModel" → nm ∉ r0.sqlalchemy_models →
      Models.loadModels r0 (.pydantic nm false :: rest) = .error nm) ∧
    Models.loadModels Models.Registry.empty Models.repoModelDecls =
      .ok ⟨["Contact", "Organization", "Note", "Task"],
           ["Contact", "Organization", "Note", "Task"]⟩ :=
  C7_schema_parity Models.repoModelDecls
    ⟨["Contact", "Organization", "Note", "Task"],
     ["Contact", "Organization", "Note", "Task"]⟩ (by rfl)

/-! ## C8 -/

/-- `find?` returns the head of the filtered list. -/
theorem find?_eq_head?_filter {α : Type} (p : α → Bool) (l : List α) :
    l.find? p = (l.filter p).head? := by
  induction l with
  | nil => rfl
  | cons a t ih =>
    rw [List.find?_cons, List.filter_cons]
    cases hpa : p a with
    | true => rfl
    | false =>
      show t.find? p = (t.filter p).head?
      exact ih

/-- C8: creating a Person whose (first, last) pair exists, or an
Organization whose name exists, is rejected with the existing row's id; the
store is unchanged, so exactly one matching row remains. -/
theorem C8_duplicate_create_rejected
    (s : Store) (fn ln nm : String) (c : Contact) (g : Organization)
    (hc : s.contacts.filter (fun d => d.first_name == fn && d.last_name == ln) = [c])
    (hg : s.organizations.filter (fun o => o.name == nm) = [g]) :
    ContactService.add_contact s fn ln = (s, none, some (Err.contactExists fn ln c.id)) ∧
    ((ContactService.add_contact s fn ln).1.contacts.filter
        (fun d => d.first_name == fn && d.last_name == ln)).length = 1 ∧
    OrganizationService.add_organization s nm =
        (s, none, some (Err.orgExists nm g.id)) ∧
    ((OrganizationService.add_organization s nm).1.organizations.filter
        (fun o => o.name == nm)).length = 1 := by
  have hfc : s.contacts.find? (fun d => d.first_name == fn && d.last_name == ln) =
      some c := by
    rw [find?_eq_head?_filter, hc]
    rfl
  have hfg : s.organizations.find? (fun o => o.name == nm) = some g := by
    rw [find?_eq_head?_filter, hg]
    rfl
  have hac : ContactService.add_contact s fn ln =
      (s, none, some (Err.contactExists fn ln c.id)) := by
    unfold ContactService.add_contact
    simp only [hfc]
  have hao : OrganizationService.add_organization s nm =
      (s, none, some (Err.orgExists nm g.id)) := by
    unfold OrganizationService.add_organization
    simp only [hfg]
  refine ⟨hac, ?_, hao, ?_⟩
  · rw [hac]
    show (s.contacts.filter (fun d => d.first_name == fn && d.last_name == ln)).length = 1
    rw [hc]
    rfl
  · rw [hao]
    show (s.organizations.filter (fun o => o.name == nm)).length = 1
    rw [hg]
    rfl

/-- Concrete instance of C8 on `store1`: re-creating "Ada Lovelace" and
"Acme" is rejected with ids 1 and 2, leaving exactly one matching row
each. -/
theorem C8_duplicate_create_rejected_witness :
    ContactService.add_contact store1 "Ada" "Lovelace" =
        (store1, none, some (Err.contactExists "Ada" "Lovelace" adaC.id)) ∧
    ((ContactService.add_contact store1 "Ada" "Lovelace").1.contacts.filter
        (fun d => d.first_name == "Ada" && d.last_name == "Lovelace")).length = 1 ∧
    OrganizationService.add_organization store1 "Acme" =
        (store1, none, some (Err.orgExists "Acme" acmeOrg.id)) ∧
    ((OrganizationService.add_organization store1 "Acme").1.organizations.filter
        (fun o => o.name == "Acme")).length = 1 :=
  C8_duplicate_create_rejected store1 "Ada" "Lovelace" "Acme" adaC acmeOrg
    (by decide) (by decide)

/-! ## C9 -/

/-- The contact-resolution block of add_note fails whenever the list names
an id matching no contact row. -/
theorem resolveContacts_error_of_missing (s : Store) (a : Nat) (l : List Nat)
    (i : Nat) (hi : i ∈ a :: l) (hmiss : ∀ c ∈ s.contacts, c.id ≠ i) :
    ∃ missing, NoteService.resolveContacts s (some (a :: l)) =
        .error (.contactsNotFound missing) ∧ i ∈ missing := by
  have hnotfound :
      i ∉ (s.contacts.filter (fun c => (a :: l).contains c.id)).map Contact.id := by
    intro hmem
    rw [List.mem_map] at hmem
    obtain ⟨c, hcf, hcid⟩ := hmem
    exact hmiss c (List.mem_filter.mp hcf).1 hcid
  have hmm : i ∈ missingIds (a :: l)
      ((s.contacts.filter (fun c => (a :: l).contains c.id)).map Contact.id) :=
    (mem_missingIds _ _ _).mpr ⟨hi, hnotfound⟩
  have hne2 : (missingIds (a :: l)
      ((s.contacts.filter (fun c => (a :: l).contains c.id)).map Contact.id)).isEmpty
        = false := by
    cases hl : missingIds (a :: l)
        ((s.contacts.filter (fun c => (a :: l).contains c.id)).map Contact.id) with
    | nil =>
      rw [hl] at hmm
      simp at hmm
    | cons b m => rfl
  refine ⟨_, ?_, hmm⟩
  unfold NoteService.resolveContacts
  simp only [truthyList, Option.getD, if_true, hne2]
  rfl

/-- C9: task creation with in-range importance never validates its id
lists — the created task is associated with exactly the ids that resolve and
the rest are silently dropped — whereas note creation with the same
contact list fails with a reference-not-found error naming the missing
id. -/
theorem C9_add_task_drops_missing_refs
    (s : Store) (title content : String) (due imp created : Int)
    (descr : Option String) (cids oids : List Nat)
    (hlo : 0 ≤ imp) (hhi : imp ≤ 10)
    (i : Nat) (hi : i ∈ cids) (hmiss : ∀ c ∈ s.contacts, c.id ≠ i) :
    (∃ tsk, TaskService.add_task s title due imp descr (some cids) (some oids) created =
        ({ s with tasks := s.tasks ++ [tsk] }, some tsk, none) ∧
      tsk.contacts = (s.contacts.filter (fun c => cids.contains c.id)).map Contact.id ∧
      tsk.organizations =
        (s.organizations.filter (fun g => oids.contains g.id)).map Organization.id) ∧
    (∃ missing, NoteService.add_note s title content created (some cids) none none =
        (s, none, some (Err.contactsNotFound missing)) ∧ i ∈ missing) := by
  obtain ⟨a, l, rfl⟩ : ∃ a l, cids = a :: l := by
    cases cids with
    | nil => simp at hi
    | cons a l => exact ⟨a, l, rfl⟩
  have hcond : ¬(imp < 0 ∨ 10 < imp) := by
    push_neg
    exact ⟨hlo, hhi⟩
  constructor
  · cases oids with
    | nil =>
      refine ⟨⟨nextId (s.tasks.map Task.id), title, descr, due, imp, false, created,
        (s.contacts.filter (fun c => (a :: l).contains c.id)).map Contact.id, []⟩,
        ?_, rfl, ?_⟩
      · unfold TaskService.add_task
        rw [if_neg hcond]
        rfl
      · rw [filter_contains_nil Organization.id s.organizations]
        rfl
    | cons b m =>
      refine ⟨⟨nextId (s.tasks.map Task.id), title, descr, due, imp, false, created,
        (s.contacts.filter (fun c => (a :: l).contains c.id)).map Contact.id,
        (s.organizations.filter (fun g => (b :: m).contains g.id)).map Organization.id⟩,
        ?_, rfl, rfl⟩
      unfold TaskService.add_task
      rw [if_neg hcond]
      rfl
  · obtain ⟨missing, herr, hmm⟩ := resolveContacts_error_of_missing s a l i hi hmiss
    refine ⟨missing, ?_, hmm⟩
    unfold NoteService.add_note
    simp only [herr]

/-- Concrete instance of C9 on `store1`: creating a task with contact list
`[1, 99]` (99 nonexistent) succeeds associated only with contact 1, while
creating a note with the same list fails naming 99. -/
theorem C9_add_task_drops_missing_refs_witness :
    (∃ tsk, TaskService.add_task store1 "Ship v2" 200 5 none (some [1, 99]) (some [7]) 0 =
        ({ store1 with tasks := store1.tasks ++ [tsk] }, some tsk, none) ∧
      tsk.contacts =
        (store1.contacts.filter (fun c => [1, 99].contains c.id)).map Contact.id ∧
      tsk.organizations =
        (store1.organizations.filter (fun g => [7].contains g.id)).map Organization.id) ∧
    (∃ missing, NoteService.add_note store1 "Ship v2" "body" 0 (some [1, 99]) none none =
        (store1, none, some (Err.contactsNotFound missing)) ∧ 99 ∈ missing) :=
  C9_add_task_drops_missing_refs store1 "Ship v2" "body" 200 5 0 none [1, 99] [7]
    (by decide) (by decide) 99 (by decide) (by decide)

/-! ## C10 -/

/-- dropWhile is the identity when no element satisfies the predicate. -/
theorem dropWhile_all_false (p : Char → Bool) (l : List Char)
    (h : ∀ c ∈ l, p c = false) : l.dropWhile p = l := by
  cases l with
  | nil => rfl
  | cons a t =>
    rw [List.dropWhile_cons, h a (List.mem_cons_self a t)]
    rfl

/-- dropWhile empties a list every element of which satisfies the
predicate. -/
theorem dropWhile_all_true (p : Char → Bool) (l : List Char)
    (h : ∀ c ∈ l, p c = true) : l.dropWhile p = [] := by
  induction l with
  | nil => rfl
  | cons a t ih =>
    rw [List.dropWhile_cons, h a (List.mem_cons_self a t), if_pos rfl]
    exact ih (fun c hc => h c (List.mem_cons_of_mem a hc))

/-- Stripping a string with no whitespace is the identity. -/
theorem pyStrip_of_no_space (l : List Char) (h : ∀ c ∈ l, pyIsSpace c = false) :
    pyStrip l = l := by
  unfold pyStrip
  rw [dropWhile_all_false pyIsSpace l h,
    dropWhile_all_false pyIsSpace l.reverse (fun c hc => h c (List.mem_reverse.mp hc)),
    List.reverse_reverse]

/-- C10: the claim is false on the code at the blank name.  The claim's
universal parse behaviour ("the name is stripped and split, the first token
becomes the first name") fails for `""`: `parts[0]` raises IndexError, the
whole bulk call aborts, and no (first, last) pair is ever produced. -/
theorem C10_counterexample :
    parseName "" = none ∧
    ContactService.bulk_add_contacts store1 [""] = none := by
  decide

/-- C10 (amended): for every name whose stripped form is nonempty (so the
parse succeeds), the first whitespace-free token of the stripped name is the
first name and the remainder after the first whitespace run is the last
name; a name containing no whitespace gets an empty last name; and the
duplicate check and insert of the bulk call use exactly that pair.  A blank
name instead raises and aborts the whole call. -/
theorem C10_bulk_name_parsing (s : Store) (name fn ln : String)
    (hparse : parseName name = some (fn, ln)) :
    fn.data = (pyStrip name.data).takeWhile (fun c => !pyIsSpace c) ∧
    ln.data = ((pyStrip name.data).dropWhile (fun c => !pyIsSpace c)).dropWhile
      pyIsSpace ∧
    (name.data.all (fun c => !pyIsSpace c) → ln = "") ∧
    (∀ ex, s.contacts.find? (fun c => c.first_name == fn && c.last_name == ln) =
        some ex →
      ContactService.bulk_add_contacts s [name] =
        some (s, [], [fn ++ " " ++ ln ++ " (ID: " ++ toString ex.id ++ ")"])) ∧
    (s.contacts.find? (fun c => c.first_name == fn && c.last_name == ln) = none →
      ContactService.bulk_add_contacts s [name] =
        some ({ s with contacts := s.contacts ++
            [⟨nextId (s.contacts.map Contact.id), fn, ln⟩] },
          [fn ++ " " ++ ln ++ " (ID: " ++
            toString (nextId (s.contacts.map Contact.id)) ++ ")"],
          [])) := by
  have hfl : fn.data = (pyStrip name.data).takeWhile (fun c => !pyIsSpace c) ∧
      ln.data = ((pyStrip name.data).dropWhile (fun c => !pyIsSpace c)).dropWhile
        pyIsSpace := by
    unfold parseName at hparse
    cases hsf : pySplitFirst name.data with
    | none =>
      rw [hsf] at hparse
      simp at hparse
    | some p =>
      cases p with
      | mk u v =>
        rw [hsf] at hparse
        replace hparse : some (String.mk u, String.mk v) = some (fn, ln) := hparse
        injection hparse with hp
        have h1 : String.mk u = fn := congrArg Prod.fst hp
        have h2 : String.mk v = ln := congrArg Prod.snd hp
        simp only [pySplitFirst] at hsf
        cases hemp : (pyStrip name.data).isEmpty with
        | true =>
          rw [if_pos hemp] at hsf
          simp at hsf
        | false =>
          rw [if_neg (by rw [hemp]; exact Bool.false_ne_true)] at hsf
          injection hsf with hsf2
          have hu : (pyStrip name.data).takeWhile (fun c => !pyIsSpace c) = u :=
            congrArg Prod.fst hsf2
          have hv : ((pyStrip name.data).dropWhile (fun c => !pyIsSpace c)).dropWhile
              pyIsSpace = v := congrArg Prod.snd hsf2
          constructor
          · rw [← h1, hu]
          · rw [← h2, hv]
  refine ⟨hfl.1, hfl.2, ?_, ?_, ?_⟩
  · intro hall
    have hns : ∀ c ∈ name.data, pyIsSpace c = false := by
      intro c hc
      have := (List.all_eq_true.mp hall) c hc
      simpa using this
    have hln : ln.data = [] := by
      rw [hfl.2, pyStrip_of_no_space name.data hns,
        dropWhile_all_true (fun c => !pyIsSpace c) name.data
          (fun c hc => by simp [hns c hc])]
      rfl
    have hmk : ln = String.mk ln.data := rfl
    rw [hmk, hln]
  · intro ex hex
    simp only [ContactService.bulk_add_contacts, ContactService.bulkAddGo, hparse, hex,
      List.nil_append]
  · intro hnone
    simp only [ContactService.bulk_add_contacts, ContactService.bulkAddGo, hparse, hnone,
      List.nil_append]

/-- Concrete instance of C10's amended theorem: "Grace Hopper" on `store1`
parses to ("Grace", "Hopper") and is inserted with that exact pair. -/
theorem C10_bulk_name_parsing_witness :
    "Grace".data = (pyStrip " Grace  Hopper ".data).takeWhile (fun c => !pyIsSpace c) ∧
    "Hopper".data = ((pyStrip " Grace  Hopper ".data).dropWhile
      (fun c => !pyIsSpace c)).dropWhile pyIsSpace ∧
    (" Grace  Hopper ".data.all (fun c => !pyIsSpace c) → "Hopper" = "") ∧
    (∀ ex, store1.contacts.find?
        (fun c => c.first_name == "Grace" && c.last_name == "Hopper") = some ex →
      ContactService.bulk_add_contacts store1 [" Grace  Hopper "] =
        some (store1, [], ["Grace" ++ " " ++ "Hopper" ++ " (ID: " ++
          toString ex.id ++ ")"])) ∧
    (store1.contacts.find?
        (fun c => c.first_name == "Grace" && c.last_name == "Hopper") = none →
      ContactService.bulk_add_contacts store1 [" Grace  Hopper "] =
        some ({ store1 with contacts := store1.contacts ++
            [⟨nextId (store1.contacts.map Contact.id), "Grace", "Hopper"⟩] },
          ["Grace" ++ " " ++ "Hopper" ++ " (ID: " ++
            toString (nextId (store1.contacts.map Contact.id)) ++ ")"],
          [])) :=
  C10_bulk_name_parsing store1 " Grace  Hopper " "Grace" "Hopper" (by decide)

end CMS
